import Mathlib

/-!
# Network layer of the portail firmware (`src/shared/net_layer.c`)

A shallow embedding of the socket table, the reference-counted packet pool,
the dispatcher and the socket API, followed by theorems about them.

Conventions of the embedding

* C globals are the fields of `State`; every function takes the state and
  returns its result together with the new state.
* Pointers into `sockets` and `pkt_rcv_buffer` are array indices; `NULL` is
  `none`.  `pkt->data` is an offset into `data_buffer`.
* Unsigned machine integers are natural numbers reduced modulo their width
  where the C code can overflow; `int` results are integers.
* Everything `net_layer.c` takes from headers that are not part of the sources
  (`limits.h`, `byteorder.h`, `net_layer.h`, `portail.h`, the kernel and the
  transceiver driver) is a field of `Platform`, so the theorems hold for every
  choice of these constants unless a hypothesis says otherwise.
* Calls into the kernel and the driver (`thread_getpid`, `msg_try_send`,
  `cc110x_send`, the interrupt's receive buffer) are explicit inputs.
* A function that may not return (the tail walk of `LL_APPEND2` on a cyclic
  queue) returns an `Option`; a blocking `netl_recv` that has to wait returns
  `recv_result.waiting`.

The definitions come first: the embedding of the code, the vocabulary of the
statements, and the states used as concrete inputs.  The lemmas and theorems
follow, one section per claim.
-/

namespace NetLayer

/-! ## Platform constants -/

/-- Constants and conventions supplied by headers outside `src/`. -/
structure Platform where
  /-- width in bits of `int` and `uint` (`limits.h`) -/
  UINT_BITS : Nat
  /-- byte order of the host (`byteorder.h`) -/
  little_endian : Bool
  /-- identity stored in a free table slot (`net_layer.h`) -/
  SOCK_UNDEF : Int
  /-- socket type of raw sockets (`net_layer.h`) -/
  SOCK_RAW : Nat
  /-- the kernel's "no thread" pid -/
  KERNEL_PID_UNDEF : Int
  /-- message type of the dispatcher's wake notification (`net_layer.h`) -/
  NETL_RCV_MSG_TYPE : Nat
  /-- message type of the driver's frame-received notification -/
  CC1100_PKT_RCV_MSG_TYPE : Nat
  /-- size of the data field of a transceiver packet -/
  CC1100_MAX_DATA_LENGTH : Nat
  /-- bytes of a transceiver packet counted in its length besides the data -/
  CC1100_HEADER_LENGTH : Nat
  /-- broadcast address of the transceiver -/
  CC1100_BROADCAST_ADDRESS : Nat
  /-- size of the staging buffer `send_to_buf` (`portail.h`) -/
  PORTAIL_MAX_DATA_SIZE : Nat
deriving DecidableEq, Repr

/-- The 16-bit little-endian target the firmware is built for (the receive path
uses the `dINT`/`eINT` intrinsics of that CPU family), with the kernel's and
the driver's usual values.  The values of `SOCK_RAW`, of the two message types
and of `PORTAIL_MAX_DATA_SIZE` are chosen; the evaluations below only need
raw and datagram sockets to have different types. -/
def target : Platform :=
  { UINT_BITS := 16
    little_endian := true
    SOCK_UNDEF := -1
    SOCK_RAW := 1
    KERNEL_PID_UNDEF := 0
    NETL_RCV_MSG_TYPE := 2
    CC1100_PKT_RCV_MSG_TYPE := 1
    CC1100_MAX_DATA_LENGTH := 58
    CC1100_HEADER_LENGTH := 3
    CC1100_BROADCAST_ADDRESS := 0
    PORTAIL_MAX_DATA_SIZE := 58 }

/-- Size of the socket table: `#define MAX_SOCKETS (3)`. -/
def MAX_SOCKETS : Nat := 3

/-- Size of the packet pool: `#define RCV_BUF_SIZE (3)`. -/
def RCV_BUF_SIZE : Nat := 3

/-- Number of values of a `uint`. -/
def UINT_RANGE (P : Platform) : Nat := 2 ^ P.UINT_BITS

/-- The constant `UINT_MAX` of `limits.h`. -/
def UINT_MAX (P : Platform) : Nat := UINT_RANGE P - 1

/-- Conversion of a `uint` to `int` (two's complement). -/
def to_int (P : Platform) (n : Nat) : Int :=
  if n % UINT_RANGE P < 2 ^ (P.UINT_BITS - 1) then ((n % UINT_RANGE P : Nat) : Int)
  else ((n % UINT_RANGE P : Nat) : Int) - (UINT_RANGE P : Nat)

/-- Conversion of an integer to `uint8_t`. -/
def to_uint8 (z : Int) : Nat := (z % 256).toNat

/-- Modelled from the spec: `sizeof(udp_hdr_t)`; the header type is declared in
`net_layer.h`, the spec's wire framing gives it three 16-bit fields
`dst_port | src_port | length`. -/
def UDP_HDR_SIZE : Nat := 6

/-! ## Byte order and memory -/

/-- Swap the two bytes of a 16-bit value. -/
def bswap16 (v : Nat) : Nat := (v % 256) * 256 + (v / 256) % 256

/-- The function `HTONS` of `byteorder.h`: host to network (big-endian) order. -/
def HTONS (P : Platform) (v : Nat) : Nat :=
  if P.little_endian then bswap16 (v % 65536) else v % 65536

/-- The function `NTOHS` of `byteorder.h`: network to host order. -/
def NTOHS (P : Platform) (v : Nat) : Nat :=
  if P.little_endian then bswap16 (v % 65536) else v % 65536

/-- The two bytes a 16-bit store of `v` leaves in memory, lowest address first. -/
def store16 (P : Platform) (v : Nat) : List Nat :=
  if P.little_endian then [v % 256, (v / 256) % 256] else [(v / 256) % 256, v % 256]

/-- The 16-bit value a load reads from the bytes `b0` (lower address) and `b1`. -/
def load16 (P : Platform) (b0 b1 : Nat) : Nat :=
  if P.little_endian then b0 + 256 * b1 else 256 * b0 + b1

/-- The 16-bit value at offset `off` of `buf`. -/
def load16_at (P : Platform) (buf : List Nat) (off : Nat) : Nat :=
  load16 P (buf.getD off 0) (buf.getD (off + 1) 0)

/-- The `n` bytes of `buf` starting at `off`. -/
def read_bytes (buf : List Nat) (off n : Nat) : List Nat := (buf.drop off).take n

/-- Effect of `memcpy(buf + off, src, src.length)` on `buf`. -/
def write_bytes (buf : List Nat) (off : Nat) (src : List Nat) : List Nat :=
  buf.take off ++ src ++ buf.drop (off + src.length)

/-! ## Data model -/

/-- The type `radio_pkt_t`: one slot of the packet pool. -/
structure radio_pkt_t where
  /-- number of threads still processing it (`uint8_t`) -/
  users : Nat
  /-- link of the receive queue the packet is on -/
  rcv_queue_next : Option Nat
  rssi : Nat
  /-- length of the frame (`radio_packet_length_t`, 8 bits) -/
  length : Nat
  /-- offset of the frame in `data_buffer`, `none` for `NULL` -/
  data : Option Nat
deriving DecidableEq, Repr

/-- The type `sock_t`: one slot of the socket table. -/
structure sock_t where
  id : Int
  blocking : Bool
  type : Nat
  port : Nat
  dest_pid : Int
  rcv_queue : Option Nat
deriving DecidableEq, Repr

/-- The anonymous struct `stats`. -/
structure stats_t where
  radio_buffer_full : Nat
  radio_send_fail : Nat
  unhandled_packet : Nat
  out_of_buffer : Nat
deriving DecidableEq, Repr

/-- The type `cc110x_packet_t` of the transceiver driver. -/
structure cc110x_packet_t where
  length : Nat
  address : Nat
  flags : Nat
  data : List Nat
deriving DecidableEq, Repr

/-- One entry of the driver's `cc110x_rx_buffer`. -/
structure rx_buffer_t where
  packet : cc110x_packet_t
  rssi : Nat
deriving DecidableEq, Repr

/-- The type `frominfo_t`: what `netl_recv` reports about the sender. -/
structure frominfo_t where
  src_port : Nat
  rssi : Nat
deriving DecidableEq, Repr

/-- The type `msg_t` of the kernel: a type and a value. -/
structure msg_t where
  type : Nat
  value : Int
deriving DecidableEq, Repr

/-- The zero-initialised `sock_t` of static storage. -/
def sock_zero : sock_t :=
  { id := 0, blocking := false, type := 0, port := 0, dest_pid := 0, rcv_queue := none }

/-- The zero-initialised `radio_pkt_t` of static storage. -/
def pkt_zero : radio_pkt_t :=
  { users := 0, rcv_queue_next := none, rssi := 0, length := 0, data := none }

/-- The file-scope variables of `net_layer.c`. -/
structure State where
  sockets : List sock_t
  socket_nextid : Nat
  next_rand_port : Nat
  stats : stats_t
  pkt_rcv_buffer : List radio_pkt_t
  data_buffer : List Nat
  rcv_buffer_pos : Nat
  net_layer_pid : Int
  /-- the `static cc110x_pkt` of `_netl_send` -/
  cc110x_pkt : cc110x_packet_t
  send_to_buf : List Nat
  did_init : Bool
deriving DecidableEq, Repr

/-- The table entry `sockets[i]`. -/
def State.sock (st : State) (i : Nat) : sock_t := st.sockets.getD i sock_zero

/-- The pool slot `pkt_rcv_buffer[i]`. -/
def State.pkt (st : State) (i : Nat) : radio_pkt_t := st.pkt_rcv_buffer.getD i pkt_zero

/-- Assignment to fields of `sockets[i]`. -/
def State.set_sock (st : State) (i : Nat) (s : sock_t) : State :=
  { st with sockets := st.sockets.set i s }

/-- Assignment to fields of `pkt_rcv_buffer[i]`. -/
def State.set_pkt (st : State) (i : Nat) (p : radio_pkt_t) : State :=
  { st with pkt_rcv_buffer := st.pkt_rcv_buffer.set i p }

/-- The variables as the C initialisers leave them before `netl_init` runs. -/
def boot (P : Platform) : State :=
  { sockets := List.replicate MAX_SOCKETS sock_zero
    socket_nextid := 0
    next_rand_port := UINT_MAX P
    stats := { radio_buffer_full := 0, radio_send_fail := 0, unhandled_packet := 0,
               out_of_buffer := 0 }
    pkt_rcv_buffer := List.replicate RCV_BUF_SIZE pkt_zero
    data_buffer := List.replicate (RCV_BUF_SIZE * P.CC1100_MAX_DATA_LENGTH) 0
    rcv_buffer_pos := 0
    net_layer_pid := P.KERNEL_PID_UNDEF
    cc110x_pkt := { length := 0, address := 0, flags := 0,
                    data := List.replicate P.CC1100_MAX_DATA_LENGTH 0 }
    send_to_buf := List.replicate P.PORTAIL_MAX_DATA_SIZE 0
    did_init := false }

/-! ## Socket table -/

/-- Function `new_socket`: the first free slot gets the next identity. -/
def new_socket (P : Platform) (st : State) : Option Nat × State :=
  match (List.range MAX_SOCKETS).find? (fun i => (st.sock i).id == P.SOCK_UNDEF) with
  | some i =>
    let sock := st.sock i
    (some i,
     { st.set_sock i { sock with id := to_int P st.socket_nextid, blocking := true,
                                 rcv_queue := none } with
       socket_nextid := (st.socket_nextid + 1) % UINT_RANGE P })
  | none => (none, st)

/-- Function `get_socket`: the first slot whose identity is `id`. -/
def get_socket (st : State) (id : Int) : Option Nat :=
  (List.range MAX_SOCKETS).find? (fun i => (st.sock i).id == id)

/-- Function `get_socket_port`: the first slot whose port is `port`. -/
def get_socket_port (st : State) (port : Nat) : Option Nat :=
  (List.range MAX_SOCKETS).find? (fun i => (st.sock i).port == port)

/-- Function `get_rand_port`: returns the counter and decrements it. -/
def get_rand_port (P : Platform) (st : State) : Nat × State :=
  let n := if st.next_rand_port < UINT_MAX P / 2 then UINT_MAX P else st.next_rand_port
  (n, { st with next_rand_port := (n + UINT_MAX P) % UINT_RANGE P })

/-- Function `sock_is_bound`. -/
def sock_is_bound (P : Platform) (sock : sock_t) : Bool :=
  sock.port != 0 && sock.dest_pid != P.KERNEL_PID_UNDEF

/-- The last element of the chain starting at `t`: the loop
`while (_tmp->next) _tmp = _tmp->next;` of `LL_APPEND2` (utlist.h).  The pool
has `RCV_BUF_SIZE` packets, so a walk that has visited `RCV_BUF_SIZE` packets
and still finds a link is on a cycle and the C loop never ends: `none`. -/
def ll_last (buf : List radio_pkt_t) : Nat → Nat → Option Nat
  | 0, _ => none
  | fuel + 1, t =>
    match (buf.getD t pkt_zero).rcv_queue_next with
    | none => some t
    | some n => ll_last buf fuel n

/-- Function `rcv_queue_add`: `LL_APPEND2(sock->rcv_queue, pkt, rcv_queue_next)`;
`none` when the walk to the tail does not terminate. -/
def rcv_queue_add (st : State) (si pi : Nat) : Option State :=
  let st1 := st.set_pkt pi { st.pkt pi with rcv_queue_next := none }
  match (st1.sock si).rcv_queue with
  | some head =>
    match ll_last st1.pkt_rcv_buffer RCV_BUF_SIZE head with
    | some t => some (st1.set_pkt t { st1.pkt t with rcv_queue_next := some pi })
    | none => none
  | none => some (st1.set_sock si { st1.sock si with rcv_queue := some pi })

/-- Function `rcv_queue_pop`: `LL_DELETE2` of the head, which is the branch
`head = head->next` of the macro. -/
def rcv_queue_pop (st : State) (si : Nat) : Option Nat × State :=
  match (st.sock si).rcv_queue with
  | some pk =>
    (some pk, st.set_sock si { st.sock si with rcv_queue := (st.pkt pk).rcv_queue_next })
  | none => (none, st)

/-- Function `netl_socket`. -/
def netl_socket (P : Platform) (st : State) (type : Nat) : Int × State :=
  match new_socket P st with
  | (some i, st1) =>
    let sock := { st1.sock i with type := type }
    (sock.id, st1.set_sock i sock)
  | (none, st1) => (-1, st1)

/-- Function `netl_unbind`; the result is a `uint8_t`, so `-1` is 255. -/
def netl_unbind (P : Platform) (st : State) (s : Int) : Nat × State :=
  match get_socket st s with
  | none => (to_uint8 (-1), st)
  | some i =>
    if sock_is_bound P (st.sock i) then
      (0, st.set_sock i { st.sock i with port := 0, dest_pid := P.KERNEL_PID_UNDEF })
    else (0, st)

/-- Function `netl_bind`; `pid` is the result of `thread_getpid()`. -/
def netl_bind (st : State) (s : Int) (port : Nat) (pid : Int) : Nat × State :=
  match get_socket st s with
  | none => (to_uint8 (-1), st)
  | some i =>
    match get_socket_port st port with
    | some e =>
      if (st.sock i).id != (st.sock e).id then (to_uint8 (-1), st) else (0, st)
    | none => (0, st.set_sock i { st.sock i with port := port, dest_pid := pid })

/-- Function `netl_close`: the identity is invalidated, then `netl_unbind(s)` is called. -/
def netl_close (P : Platform) (st : State) (s : Int) : Int × State :=
  match get_socket st s with
  | none => (-1, st)
  | some i =>
    let st1 := st.set_sock i { st.sock i with id := P.SOCK_UNDEF }
    (0, (netl_unbind P st1 s).2)

/-- Function `netl_set_nonblock`. -/
def netl_set_nonblock (st : State) (s : Int) : Int × State :=
  match get_socket st s with
  | none => (-1, st)
  | some i => (0, st.set_sock i { st.sock i with blocking := false })

/-! ## Receiving -/

/-- What a call of `netl_recv` comes to. -/
inductive recv_result where
  /-- the call returned `ret`, leaving `dest` and `info` as given -/
  | returned (ret : Int) (st : State) (dest : List Nat) (info : Option frominfo_t)
  /-- the caller is suspended in `msg_receive` -/
  | waiting (st : State)
  /-- the code dereferences `NULL` -/
  | fault
deriving DecidableEq, Repr

/-- Lines 255-281 of `netl_recv`: what is done with the packet `pk` once it
has been taken off the queue of `sockets[si]`.  `dest` is the caller's buffer,
`info` is `none` when the caller passed `NULL`. -/
def netl_recv_deliver (P : Platform) (st : State) (si pk : Nat) (dest : List Nat)
    (maxlen : Nat) (info : Option frominfo_t) : recv_result :=
  let pkt := st.pkt pk
  match pkt.data with
  | none => recv_result.fault
  | some udph =>
    let udph_src_port := load16_at P st.data_buffer (udph + 2)
    let udph_length := load16_at P st.data_buffer (udph + 4)
    let length := if (st.sock si).type == P.SOCK_RAW then pkt.length else udph_length
    let data := if (st.sock si).type == P.SOCK_RAW then udph else udph + UDP_HDR_SIZE
    if length ≤ maxlen then
      recv_result.returned (to_int P length) st
        (write_bytes dest 0 (read_bytes st.data_buffer data length))
        (info.map (fun _ => { src_port := udph_src_port, rssi := pkt.rssi }))
    else
      recv_result.returned 0 (st.set_pkt pk { pkt with users := (pkt.users + 255) % 256 })
        dest info

/-- Function `netl_recv` up to its first `msg_receive`. -/
def netl_recv (P : Platform) (st : State) (s : Int) (dest : List Nat) (maxlen : Nat)
    (info : Option frominfo_t) : recv_result :=
  match get_socket st s with
  | none => recv_result.returned (-1) st dest info
  | some si =>
    match rcv_queue_pop st si with
    | (some pk, st1) => netl_recv_deliver P st1 si pk dest maxlen info
    | (none, st1) =>
      if (st1.sock si).blocking then recv_result.waiting st1
      else recv_result.returned 0 st1 dest info

/-- One turn of the `while (1)` loop of `netl_recv`: `msg_receive` has returned
`m` to the caller suspended on `sockets[si]`, the variables being `st` by then. -/
def netl_recv_wake (P : Platform) (st : State) (si : Nat) (m : msg_t) (dest : List Nat)
    (maxlen : Nat) (info : Option frominfo_t) : recv_result :=
  if m.type != P.NETL_RCV_MSG_TYPE then recv_result.waiting st
  else if (st.sock si).id != m.value then recv_result.waiting st
  else
    match rcv_queue_pop st si with
    | (some pk, st1) => netl_recv_deliver P st1 si pk dest maxlen info
    | (none, _) => recv_result.fault

/-! ## Sending -/

/-- Function `_netl_send`: fills the static `cc110x_pkt` and hands it to the driver;
`cc110x_send` is the driver's result (an `int8_t`) for that packet.  The
packet transmitted is the `cc110x_pkt` of the state returned. -/
def _netl_send (P : Platform) (st : State) (data : List Nat) (size : Nat)
    (cc110x_send : cc110x_packet_t → Int) : Nat × State :=
  let pkt : cc110x_packet_t :=
    { length := (size + P.CC1100_HEADER_LENGTH) % 256
      address := P.CC1100_BROADCAST_ADDRESS
      flags := 0
      data := write_bytes st.cc110x_pkt.data 0 (read_bytes data 0 size) }
  let sent_len := cc110x_send pkt
  let st1 := { st with cc110x_pkt := pkt }
  let st2 :=
    if sent_len ≤ 0 then
      { st1 with stats := { st1.stats with
          radio_send_fail := (st1.stats.radio_send_fail + 1) % UINT_RANGE P } }
    else st1
  (to_uint8 sent_len, st2)

/-- Function `netl_send_to`; `size` is a `uint8_t`.  The subtraction of the size check
is unsigned (`size_t`, of the width of `uint` on the target). -/
def netl_send_to (P : Platform) (st : State) (s : Int) (data : List Nat) (size : Nat)
    (dstport : Nat) (cc110x_send : cc110x_packet_t → Int) : Int × State :=
  match get_socket st s with
  | none => (-1, st)
  | some i =>
    if (P.PORTAIL_MAX_DATA_SIZE + UINT_RANGE P - UDP_HDR_SIZE) % UINT_RANGE P < size then
      (-1, st)
    else
      let src :=
        if sock_is_bound P (st.sock i) then ((st.sock i).port, st) else get_rand_port P st
      let udph :=
        store16 P (HTONS P dstport) ++ store16 P (HTONS P src.1) ++ store16 P (HTONS P size)
      let buf := write_bytes (write_bytes src.2.send_to_buf 0 udph) UDP_HDR_SIZE
        (read_bytes data 0 size)
      let r := _netl_send P { src.2 with send_to_buf := buf } buf
        ((size + UDP_HDR_SIZE) % 256) cc110x_send
      ((r.1 : Int), r.2)

/-- Function `netl_send`; `size` is a `uint8_t`. -/
def netl_send (P : Platform) (st : State) (s : Int) (data : List Nat) (size : Nat)
    (cc110x_send : cc110x_packet_t → Int) : Int × State :=
  match get_socket st s with
  | none => (-1, st)
  | some _ =>
    if P.PORTAIL_MAX_DATA_SIZE < size then (-1, st)
    else
      let r := _netl_send P st data size cc110x_send
      ((r.1 : Int), r.2)

/-! ## Packet pool and dispatcher -/

/-- The `for` loop of `incr_rcv_buffer_pos` with `n` iterations left, that is
`i = RCV_BUF_SIZE - n`; returns the final `i` and `rcv_buffer_pos`. -/
def incr_loop (buf : List radio_pkt_t) : Nat → Nat → Nat → Nat × Nat
  | 0, i, pos => (i, pos)
  | n + 1, i, pos =>
    if (buf.getD pos pkt_zero).users != 0 then
      incr_loop buf n (i + 1) (if (pos + 1) % 256 == RCV_BUF_SIZE then 0 else (pos + 1) % 256)
    else (i, pos)

/-- Function `incr_rcv_buffer_pos`: 0, or -1 on out of buffer. -/
def incr_rcv_buffer_pos (st : State) : Int × State :=
  let r := incr_loop st.pkt_rcv_buffer RCV_BUF_SIZE 0 st.rcv_buffer_pos
  let st1 := { st with rcv_buffer_pos := r.2 }
  if r.1 ≥ RCV_BUF_SIZE then (-1, st1) else (0, st1)

/-- Whether the dispatcher offers the frame whose header starts at `udph` of
the data buffer to `sock`: the two conditions of `handle_radio_packet`. -/
def sock_should_receive (P : Platform) (st : State) (sock : sock_t) (udph : Nat) : Bool :=
  let has_matching_port :=
    sock.port != 0 && sock.port == NTOHS P (load16_at P st.data_buffer udph)
  let has_no_port_but_is_raw := sock.port == 0 && sock.type == P.SOCK_RAW
  has_matching_port || has_no_port_but_is_raw

/-- The body of the `for` loop of `handle_radio_packet` for `sockets[i]`;
`ret` is the result of `msg_try_send`.  The flag is `pkt_handled`. -/
def handle_radio_packet_sock (P : Platform) (pk udph : Nat) (ret : Int)
    (acc : State × Bool) (i : Nat) : Option (State × Bool) :=
  let st := acc.1
  let sock := st.sock i
  if sock.dest_pid != P.KERNEL_PID_UNDEF then
    if sock_should_receive P st sock udph then
      if ret == 1 then
        let st1 := st.set_pkt pk { st.pkt pk with users := ((st.pkt pk).users + 1) % 256 }
        (rcv_queue_add st1 i pk).map (fun st2 => (st2, true))
      else some acc
    else some acc
  else some acc

/-- The `for` loop of `handle_radio_packet` over the slots `is`. -/
def handle_radio_packet_loop (P : Platform) (pk udph : Nat) (try_send : Nat → Int) :
    List Nat → State × Bool → Option (State × Bool)
  | [], acc => some acc
  | i :: is, acc =>
    match handle_radio_packet_sock P pk udph (try_send i) acc i with
    | some acc1 => handle_radio_packet_loop P pk udph try_send is acc1
    | none => none

/-- Function `handle_radio_packet` for the pool slot `pk`; `try_send i` is the result of
the `msg_try_send` call made for `sockets[i]`.  `none` when the call does not
return (the tail walk of a queue does not end, or `pkt->data` is `NULL`). -/
def handle_radio_packet (P : Platform) (st : State) (pk : Nat) (try_send : Nat → Int) :
    Option State :=
  match (st.pkt pk).data with
  | none => none
  | some udph =>
    match handle_radio_packet_loop P pk udph try_send (List.range MAX_SOCKETS) (st, false) with
    | some (st1, pkt_handled) =>
      if !pkt_handled then
        some { st1 with stats := { st1.stats with
          unhandled_packet := (st1.stats.unhandled_packet + 1) % UINT_RANGE P } }
      else some st1
    | none => none

/-- The entry of the driver's receive buffer at `pos`. -/
def rx_entry (P : Platform) (rxbuf : List rx_buffer_t) (pos : Nat) : rx_buffer_t :=
  rxbuf.getD pos
    { packet := { length := 0, address := 0, flags := 0,
                  data := List.replicate P.CC1100_MAX_DATA_LENGTH 0 },
      rssi := 0 }

/-- Function `receive_cc110x_packet`: copies entry `rx_buffer_pos` of the driver's
`cc110x_rx_buffer` into the pool slot `pk`. -/
def receive_cc110x_packet (P : Platform) (st : State) (pk : Nat) (rx_buffer_pos : Nat)
    (cc110x_rx_buffer : List rx_buffer_t) : State :=
  let e := rx_entry P cc110x_rx_buffer rx_buffer_pos
  let off := st.rcv_buffer_pos * P.CC1100_MAX_DATA_LENGTH
  let st1 := st.set_pkt pk
    { st.pkt pk with
      rssi := e.rssi
      length := (e.packet.length + 256 - P.CC1100_HEADER_LENGTH % 256) % 256
      data := some off }
  { st1 with data_buffer :=
      write_bytes st1.data_buffer off (read_bytes e.packet.data 0 P.CC1100_MAX_DATA_LENGTH) }

/-- The body of the `while (1)` loop of `rx_thread` for the message `m`. -/
def rx_thread_step (P : Platform) (st : State) (m : msg_t)
    (cc110x_rx_buffer : List rx_buffer_t) (try_send : Nat → Int) : Option State :=
  if m.type == P.CC1100_PKT_RCV_MSG_TYPE then
    let r := incr_rcv_buffer_pos st
    if r.1 == 0 then
      let pos := to_uint8 m.value
      let pk := r.2.rcv_buffer_pos
      handle_radio_packet P (receive_cc110x_packet P r.2 pk pos cc110x_rx_buffer) pk try_send
    else
      some { r.2 with stats := { r.2.stats with
        radio_buffer_full := (r.2.stats.radio_buffer_full + 1) % UINT_RANGE P } }
  else some st

/-- Function `netl_init`; `pid` is the result of `thread_create`. -/
def netl_init (P : Platform) (st : State) (pid : Int) : State :=
  let st1 :=
    if !st.did_init then
      { (List.range MAX_SOCKETS).foldl
          (fun acc i => acc.set_sock i { acc.sock i with id := P.SOCK_UNDEF }) st with
        did_init := true }
    else st
  if st1.net_layer_pid == P.KERNEL_PID_UNDEF then { st1 with net_layer_pid := pid } else st1

/-! ## Vocabulary of the statements -/

/-- States of the socket table reachable from `netl_init` by creating, binding,
unbinding and closing sockets, with arbitrary arguments. -/
inductive TableReachable (P : Platform) : State → Prop
  | init (pid : Int) : TableReachable P (netl_init P (boot P) pid)
  | socket {st : State} (type : Nat) :
      TableReachable P st → TableReachable P (netl_socket P st type).2
  | bind {st : State} (s : Int) (port : Nat) (pid : Int) :
      TableReachable P st → TableReachable P (netl_bind st s port pid).2
  | unbind {st : State} (s : Int) :
      TableReachable P st → TableReachable P (netl_unbind P st s).2
  | close {st : State} (s : Int) :
      TableReachable P st → TableReachable P (netl_close P st s).2

/-- No two table slots hold the same non-zero port. -/
def ports_exclusive (st : State) : Prop :=
  ∀ i < MAX_SOCKETS, ∀ j < MAX_SOCKETS, i ≠ j →
    (st.sock i).port ≠ 0 → (st.sock i).port ≠ (st.sock j).port

/-- The table has its three slots and the ports are exclusive. -/
def table_inv (st : State) : Prop :=
  st.sockets.length = MAX_SOCKETS ∧ ports_exclusive st

/-- A call of `netl_socket` or of `netl_close`. -/
inductive sock_call where
  | socket (type : Nat)
  | close (s : Int)
deriving DecidableEq, Repr

/-- Runs a sequence of `netl_socket` and `netl_close` calls: the identities
returned by the `netl_socket` calls that did not fail, in call order, and the
final state. -/
def run_calls (P : Platform) : State → List sock_call → List Int × State
  | st, [] => ([], st)
  | st, sock_call.socket type :: cs =>
    let r := netl_socket P st type
    let rest := run_calls P r.2 cs
    (if r.1 = -1 then rest.1 else r.1 :: rest.1, rest.2)
  | st, sock_call.close s :: cs => run_calls P (netl_close P st s).2 cs

/-- The number of `netl_socket` calls in a sequence of calls. -/
def num_creates : List sock_call → Nat
  | [] => 0
  | sock_call.socket _ :: cs => num_creates cs + 1
  | sock_call.close _ :: cs => num_creates cs

/-- Creates a socket and closes it again, `n` times over. -/
def churn (P : Platform) : Nat → State → State
  | 0, st => st
  | n + 1, st =>
    let r := netl_socket P (churn P n st) 0
    (netl_close P r.2 r.1).2

/-- What the dispatcher's loop over the sockets leaves as it is, between the
states `st` and `st1`: the data buffer, the cursor, the sizes of the tables,
every socket up to its receive queue, and the frame of pool slot `pk`. -/
def dispatch_keeps (pk : Nat) (st st1 : State) : Prop :=
  st1.data_buffer = st.data_buffer ∧ st1.sockets.length = st.sockets.length ∧
  st1.pkt_rcv_buffer.length = st.pkt_rcv_buffer.length ∧
  st1.rcv_buffer_pos = st.rcv_buffer_pos ∧
  (∀ k, (st1.sock k).id = (st.sock k).id ∧ (st1.sock k).blocking = (st.sock k).blocking ∧
    (st1.sock k).type = (st.sock k).type ∧ (st1.sock k).port = (st.sock k).port ∧
    (st1.sock k).dest_pid = (st.sock k).dest_pid) ∧
  (st1.pkt pk).data = (st.pkt pk).data ∧ (st1.pkt pk).length = (st.pkt pk).length

/-- The variables after `netl_init()` on the target. -/
def sc_init : State := netl_init target (boot target) 7

/-- After `netl_init()` and one `netl_socket` call for a datagram socket: the
socket has identity 0 and sits in slot 0. -/
def sc_one : State := (netl_socket target sc_init 0).2

/-- After `sc_one`, the thread with pid 5 has bound socket 0 to port 100. -/
def sc_bound : State := (netl_bind sc_one 0 100 5).2

/-- Two datagram sockets 0 and 1, socket 0 bound to port 100 by pid 5. -/
def sc_two : State := (netl_bind (netl_socket target sc_one 0).2 0 100 5).2

/-- A transceiver driver that sends every packet in full. -/
def drv_ok (p : cc110x_packet_t) : Int := p.length

/-- The frame-received notification for entry 0 of the driver's buffer. -/
def rx_msg : msg_t := { type := target.CC1100_PKT_RCV_MSG_TYPE, value := 0 }

/-- A received packet with a 10-byte frame addressed to port 100 whose length
field reads 4 on the target, followed by the payload 9 8 7 6. -/
def rx_short : List rx_buffer_t :=
  [{ packet := { length := 13, address := 0, flags := 0,
                 data := [0, 100, 0, 7, 4, 0, 9, 8, 7, 6] ++ List.replicate 48 0 },
     rssi := 33 }]

/-- The ten payload bytes of the round trip. -/
def c2_payload : List Nat := [1, 2, 3, 4, 5, 6, 7, 8, 9, 10]

/-- The unbound socket 0 of `sc_one` sends `c2_payload` to port 100. -/
def c2_sent : Int × State := netl_send_to target sc_one 0 c2_payload 10 100 drv_ok

/-- The receiver's driver buffer holding the packet transmitted by `c2_sent`. -/
def c2_rxbuf : List rx_buffer_t := [{ packet := c2_sent.2.cc110x_pkt, rssi := 33 }]

/-- Feeds `n` frame-received notifications for the driver buffer `rxbuf` to
the receive thread of the target, every wake notification being accepted. -/
def feed (st : State) (rxbuf : List rx_buffer_t) : Nat → State
  | 0 => st
  | n + 1 =>
    (rx_thread_step target (feed st rxbuf n) rx_msg rxbuf (fun _ => 1)).getD (feed st rxbuf n)

/-- Creates, closes and creates again, with a create on a full table in
between: sockets 0 and 1, close 0, sockets 2 (in the slot of 0) and 3, a
failing create, close 1, socket 4 (in the slot of 1). -/
def c5_calls : List sock_call :=
  [sock_call.socket 0, sock_call.socket 0, sock_call.close 0, sock_call.socket 0,
   sock_call.socket 0, sock_call.socket 0, sock_call.close 1, sock_call.socket 0]

/-- After `netl_init()` and one `netl_socket(SOCK_RAW)`: raw socket 0, which
has no port and no owner. -/
def c6_raw : State := (netl_socket target sc_init target.SOCK_RAW).2

/-- After `c6_raw`, the thread with pid 5 has bound the raw socket 0 to port 100. -/
def sc_raw_bound : State := (netl_bind c6_raw 0 100 5).2

/-- Raw socket 0 and datagram sockets 1 and 2, bound to ports 1, 2 and 3 by
pid 5; then socket 0 is bound to port 0, which no slot holds at that moment:
it has no port, but an owner. -/
def c6_owned : State :=
  (netl_bind
    (netl_bind
      (netl_bind
        (netl_bind
          (netl_socket target (netl_socket target c6_raw 0).2 0).2
          0 1 5).2
        1 2 5).2
      2 3 5).2
    0 0 5).2

/-- Socket 0 is bound to port 100 and three frames for it have been received
and not consumed: every pool slot is referenced. -/
def c10_full : State := feed sc_bound rx_short 3

/-- The values returned by `n` successive calls of `get_rand_port`, the first
call first, and the state after them. -/
def rand_ports (P : Platform) : Nat → State → List Nat × State
  | 0, st => ([], st)
  | n + 1, st =>
    let r := get_rand_port P st
    let rest := rand_ports P n r.2
    (r.1 :: rest.1, rest.2)

/-- How a value returned by `get_rand_port` follows from the value `a`
returned before it: one less, or `UINT_MAX` when the counter left behind,
`a - 1`, is below `UINT_MAX / 2`. -/
def rand_port_next (P : Platform) (a b : Nat) : Prop :=
  b = if a - 1 < UINT_MAX P / 2 then UINT_MAX P else a - 1

/-- The packets on the chain that starts at `p`, following `rcv_queue_next`
for at most `fuel` packets; `none` when the chain has not reached `NULL` by
then. -/
def ll_chain (buf : List radio_pkt_t) : Nat → Option Nat → Option (List Nat)
  | _, none => some []
  | 0, some _ => none
  | fuel + 1, some p =>
    (ll_chain buf fuel (buf.getD p pkt_zero).rcv_queue_next).map (fun l => p :: l)

/-- The receive queue of `sockets[i]` as the list of the pool slots on it, head
first; `none` when following the links from the head does not reach `NULL`
within the `RCV_BUF_SIZE` packets of the pool, that is when the queue is
cyclic. -/
def rcv_queue_list (st : State) (i : Nat) : Option (List Nat) :=
  ll_chain st.pkt_rcv_buffer RCV_BUF_SIZE (st.sock i).rcv_queue

/-- A received packet with a 10-byte frame addressed to port `dst`: source
port 7, a length field that reads 4 on the target, and four payload bytes
`tag`. -/
def rx_to (dst tag : Nat) : List rx_buffer_t :=
  [{ packet := { length := 13, address := 0, flags := 0,
                 data := [0, dst, 0, 7, 4, 0, tag, tag, tag, tag] ++ List.replicate 48 0 },
     rssi := 33 }]

/-- The result of `msg_try_send` when every wake notification is accepted. -/
def accept_all : Nat → Int := fun _ => 1

/-- The result of `msg_try_send` when only the owner of `sockets[0]` accepts
the wake notification. -/
def accept_slot0 : Nat → Int := fun i => if i = 0 then 1 else 0

theorem range_max_sockets : List.range MAX_SOCKETS = [0, 1, 2] := by decide

theorem forall_lt_max {p : Nat → Prop} :
    (∀ i < MAX_SOCKETS, p i) ↔ p 0 ∧ p 1 ∧ p 2 := by
  simp [MAX_SOCKETS, Nat.forall_lt_succ]
  tauto

theorem forall_lt_rcv_buf {p : Nat → Prop} :
    (∀ i < RCV_BUF_SIZE, p i) ↔ p 0 ∧ p 1 ∧ p 2 := by
  simp [RCV_BUF_SIZE, Nat.forall_lt_succ]
  tauto

theorem get_socket_eq (st : State) (s : Int) :
    get_socket st s =
      if (st.sock 0).id = s then some 0
      else if (st.sock 1).id = s then some 1
      else if (st.sock 2).id = s then some 2 else none := by
  simp only [get_socket, range_max_sockets, List.find?_cons, List.find?_nil]
  cases h0 : ((st.sock 0).id == s) <;> cases h1 : ((st.sock 1).id == s) <;>
    cases h2 : ((st.sock 2).id == s) <;> simp_all

theorem get_socket_port_eq (st : State) (p : Nat) :
    get_socket_port st p =
      if (st.sock 0).port = p then some 0
      else if (st.sock 1).port = p then some 1
      else if (st.sock 2).port = p then some 2 else none := by
  simp only [get_socket_port, range_max_sockets, List.find?_cons, List.find?_nil]
  cases h0 : ((st.sock 0).port == p) <;> cases h1 : ((st.sock 1).port == p) <;>
    cases h2 : ((st.sock 2).port == p) <;> simp_all

theorem get_socket_none (st : State) (s : Int)
    (h : ∀ i < MAX_SOCKETS, (st.sock i).id ≠ s) : get_socket st s = none := by
  rw [forall_lt_max] at h
  rw [get_socket_eq]
  simp [h.1, h.2.1, h.2.2]

theorem get_socket_some {st : State} {s : Int} {k : Nat} (h : get_socket st s = some k) :
    k < MAX_SOCKETS ∧ (st.sock k).id = s := by
  rw [get_socket_eq] at h
  unfold MAX_SOCKETS
  split_ifs at h <;> simp at h <;> subst h <;> exact ⟨by omega, by assumption⟩

theorem get_socket_port_some {st : State} {p k : Nat} (h : get_socket_port st p = some k) :
    k < MAX_SOCKETS ∧ (st.sock k).port = p := by
  rw [get_socket_port_eq] at h
  unfold MAX_SOCKETS
  split_ifs at h <;> simp at h <;> subst h <;> exact ⟨by omega, by assumption⟩

theorem get_socket_port_none {st : State} {p : Nat} (h : get_socket_port st p = none) :
    ∀ k < MAX_SOCKETS, (st.sock k).port ≠ p := by
  rw [get_socket_port_eq] at h
  rw [forall_lt_max]
  split_ifs at h
  simp_all

theorem get_socket_isSome {st : State} {s : Int} {k : Nat} (hk : k < MAX_SOCKETS)
    (h : (st.sock k).id = s) : ∃ i, get_socket st s = some i := by
  rw [get_socket_eq]
  have hk3 : k = 0 ∨ k = 1 ∨ k = 2 := by
    unfold MAX_SOCKETS at hk
    omega
  split_ifs
  · exact ⟨0, rfl⟩
  · exact ⟨1, rfl⟩
  · exact ⟨2, rfl⟩
  · rcases hk3 with rfl | rfl | rfl <;> contradiction

theorem get_socket_port_isSome {st : State} {p k : Nat} (hk : k < MAX_SOCKETS)
    (h : (st.sock k).port = p) : ∃ i, get_socket_port st p = some i := by
  rw [get_socket_port_eq]
  have hk3 : k = 0 ∨ k = 1 ∨ k = 2 := by
    unfold MAX_SOCKETS at hk
    omega
  split_ifs
  · exact ⟨0, rfl⟩
  · exact ⟨1, rfl⟩
  · exact ⟨2, rfl⟩
  · rcases hk3 with rfl | rfl | rfl <;> contradiction

theorem get_socket_eq_none_iff (st : State) (s : Int) :
    get_socket st s = none ↔ ∀ i < MAX_SOCKETS, (st.sock i).id ≠ s := by
  constructor
  · intro h i hi he
    obtain ⟨k, hk⟩ := get_socket_isSome hi he
    rw [h] at hk
    exact Option.noConfusion hk
  · exact get_socket_none st s

theorem get_socket_congr {a b : State} (h : ∀ k, (a.sock k).id = (b.sock k).id) (s : Int) :
    get_socket a s = get_socket b s := by
  rw [get_socket_eq, get_socket_eq, h 0, h 1, h 2]

theorem sock_set_sock (st : State) (i j : Nat) (s : sock_t) (h : i < st.sockets.length) :
    (st.set_sock i s).sock j = if j = i then s else st.sock j := by
  unfold State.sock State.set_sock
  by_cases hj : j = i
  · subst hj
    simp [List.getD_eq_getElem?_getD, h]
  · have hj2 : ¬ i = j := fun e => hj e.symm
    simp [List.getD_eq_getElem?_getD, List.getElem?_set, hj, hj2]

theorem pkt_set_pkt (st : State) (i j : Nat) (p : radio_pkt_t)
    (h : i < st.pkt_rcv_buffer.length) :
    (st.set_pkt i p).pkt j = if j = i then p else st.pkt j := by
  unfold State.pkt State.set_pkt
  by_cases hj : j = i
  · subst hj
    simp [List.getD_eq_getElem?_getD, h]
  · have hj2 : ¬ i = j := fun e => hj e.symm
    simp [List.getD_eq_getElem?_getD, List.getElem?_set, hj, hj2]

theorem length_set_sock (st : State) (i : Nat) (s : sock_t) :
    (st.set_sock i s).sockets.length = st.sockets.length := by
  simp [State.set_sock]

theorem length_set_pkt (st : State) (i : Nat) (p : radio_pkt_t) :
    (st.set_pkt i p).pkt_rcv_buffer.length = st.pkt_rcv_buffer.length := by
  simp [State.set_pkt]

theorem sock_set_pkt (st : State) (i k : Nat) (p : radio_pkt_t) :
    (st.set_pkt i p).sock k = st.sock k := rfl

theorem pkt_set_sock (st : State) (i k : Nat) (s : sock_t) :
    (st.set_sock i s).pkt k = st.pkt k := rfl

theorem sockets_length_set_pkt (st : State) (i : Nat) (p : radio_pkt_t) :
    (st.set_pkt i p).sockets.length = st.sockets.length := rfl

theorem sock_set_sock_if (st : State) (i j : Nat) (s : sock_t) :
    (st.set_sock i s).sock j = if j = i ∧ i < st.sockets.length then s else st.sock j := by
  by_cases h : i < st.sockets.length
  · rw [sock_set_sock st i j s h]
    simp [h]
  · have e : st.set_sock i s = st := by
      unfold State.set_sock
      rw [List.set_eq_of_length_le (Nat.le_of_not_lt h)]
    rw [e]
    simp [h]

theorem sock_with_nextid (st : State) (n k : Nat) :
    ({ st with socket_nextid := n } : State).sock k = st.sock k := rfl

theorem pkt_set_pkt_self (st : State) (pk : Nat) (p : radio_pkt_t)
    (hd : p.data = (st.pkt pk).data) (hl : p.length = (st.pkt pk).length) :
    ((st.set_pkt pk p).pkt pk).data = (st.pkt pk).data ∧
      ((st.set_pkt pk p).pkt pk).length = (st.pkt pk).length := by
  by_cases h : pk < st.pkt_rcv_buffer.length
  · rw [pkt_set_pkt st pk pk p h, if_pos rfl]
    exact ⟨hd, hl⟩
  · have e : st.set_pkt pk p = st := by
      unfold State.set_pkt
      rw [List.set_eq_of_length_le (Nat.le_of_not_lt h)]
    rw [e]
    exact ⟨rfl, rfl⟩

theorem to_uint8_neg_one : to_uint8 (-1) = 255 := by decide

theorem to_int_small (P : Platform) (n : Nat) (h : n < 2 ^ (P.UINT_BITS - 1)) :
    to_int P n = (n : Int) := by
  have h2 : 2 ^ (P.UINT_BITS - 1) ≤ 2 ^ P.UINT_BITS :=
    Nat.pow_le_pow_right (by decide) (Nat.sub_le _ _)
  have hm : n % UINT_RANGE P = n := Nat.mod_eq_of_lt (by unfold UINT_RANGE; omega)
  unfold to_int
  rw [hm, if_pos h]

theorem to_int_ne_neg_one (P : Platform) (n : Nat) (h : n < UINT_MAX P) :
    to_int P n ≠ -1 := by
  unfold UINT_MAX at h
  have hm : n % UINT_RANGE P = n := Nat.mod_eq_of_lt (by omega)
  unfold to_int
  rw [hm]
  split_ifs <;> omega

theorem read_write_bytes (buf : List Nat) (off : Nat) (src : List Nat) (n : Nat)
    (hoff : off ≤ buf.length) (hn : n ≤ src.length) :
    read_bytes (write_bytes buf off src) off n = src.take n := by
  unfold read_bytes write_bytes
  have h1 : (buf.take off).length = off := by simp [hoff]
  rw [List.append_assoc, List.drop_append_of_le_length (by omega)]
  have h2 : List.drop off (List.take off buf) = [] := by
    apply List.drop_eq_nil_of_le
    omega
  rw [h2, List.nil_append, List.take_append_of_le_length hn]

/-! ### Creating, unbinding and closing -/

theorem new_socket_eq (P : Platform) (st : State) :
    new_socket P st =
      match get_socket st P.SOCK_UNDEF with
      | some i =>
        (some i,
         { st.set_sock i { st.sock i with id := to_int P st.socket_nextid, blocking := true,
                                          rcv_queue := none } with
           socket_nextid := (st.socket_nextid + 1) % UINT_RANGE P })
      | none => (none, st) := rfl

theorem netl_socket_some (P : Platform) (st : State) (type i : Nat)
    (hlen : st.sockets.length = MAX_SOCKETS)
    (h : get_socket st P.SOCK_UNDEF = some i) :
    netl_socket P st type =
      (to_int P st.socket_nextid,
       { st.set_sock i { st.sock i with id := to_int P st.socket_nextid, blocking := true,
                                        rcv_queue := none, type := type } with
         socket_nextid := (st.socket_nextid + 1) % UINT_RANGE P }) := by
  have hi := (get_socket_some h).1
  have hl : i < st.sockets.length := by rw [hlen]; exact hi
  unfold netl_socket
  rw [new_socket_eq, h]
  simp only [State.set_sock, State.sock]
  simp [List.getD_eq_getElem?_getD, hl]

theorem netl_socket_none (P : Platform) (st : State) (type : Nat)
    (h : get_socket st P.SOCK_UNDEF = none) :
    netl_socket P st type = (-1, st) := by
  unfold netl_socket
  rw [new_socket_eq, h]

theorem netl_socket_frame (P : Platform) (st : State) (type : Nat)
    (hlen : st.sockets.length = MAX_SOCKETS) :
    (netl_socket P st type).2.sockets.length = MAX_SOCKETS := by
  cases hg : get_socket st P.SOCK_UNDEF with
  | none => rw [netl_socket_none P st type hg]; exact hlen
  | some i =>
    rw [netl_socket_some P st type i hlen hg]
    exact (length_set_sock _ _ _).trans hlen

theorem netl_unbind_frame (P : Platform) (st : State) (s : Int) :
    (netl_unbind P st s).2.sockets.length = st.sockets.length ∧
    (netl_unbind P st s).2.socket_nextid = st.socket_nextid := by
  unfold netl_unbind
  cases get_socket st s with
  | none => exact ⟨rfl, rfl⟩
  | some i =>
    simp only
    split_ifs
    · exact ⟨length_set_sock _ _ _, rfl⟩
    · exact ⟨rfl, rfl⟩

theorem netl_unbind_id (P : Platform) (st : State) (s : Int)
    (hlen : st.sockets.length = MAX_SOCKETS) (k : Nat) :
    ((netl_unbind P st s).2.sock k).id = (st.sock k).id := by
  unfold netl_unbind
  cases hg : get_socket st s with
  | none => rfl
  | some i =>
    have hi : i < st.sockets.length := by rw [hlen]; exact (get_socket_some hg).1
    simp only
    split_ifs
    · rw [sock_set_sock st i k _ hi]
      split_ifs with hk
      · rw [hk]
      · rfl
    · rfl

theorem netl_close_none (P : Platform) (st : State) (s : Int)
    (h : get_socket st s = none) : netl_close P st s = (-1, st) := by
  simp [netl_close, h]

theorem netl_close_frame (P : Platform) (st : State) (s : Int) :
    (netl_close P st s).2.sockets.length = st.sockets.length ∧
    (netl_close P st s).2.socket_nextid = st.socket_nextid := by
  unfold netl_close
  cases get_socket st s with
  | none => exact ⟨rfl, rfl⟩
  | some i =>
    simp only
    have h := netl_unbind_frame P (st.set_sock i { st.sock i with id := P.SOCK_UNDEF }) s
    exact ⟨h.1.trans (length_set_sock _ _ _), h.2⟩

theorem netl_close_frees (P : Platform) (st : State) (s : Int)
    (hlen : st.sockets.length = MAX_SOCKETS) (h : (netl_close P st s).1 = 0) :
    ∃ i < MAX_SOCKETS, ((netl_close P st s).2.sock i).id = P.SOCK_UNDEF := by
  unfold netl_close at h ⊢
  cases hg : get_socket st s with
  | none => rw [hg] at h; simp at h
  | some i =>
    have hi := (get_socket_some hg).1
    have hil : i < st.sockets.length := by rw [hlen]; exact hi
    refine ⟨i, hi, ?_⟩
    simp only
    rw [netl_unbind_id P _ s ((length_set_sock _ _ _).trans hlen) i, sock_set_sock st i i _ hil]
    simp

/-! ### C1: reference count after a receive -/

/-- C1: evaluation of the code where the claim fails.  Socket 0 is bound to
port 100 and is the only receiver (K = 1) of a frame.  First a datagram socket
and a frame whose payload of 4 bytes fits `maxlen = 4`; then a raw socket and
the 16-byte frame built by a peer's `netl_send_to`, with `maxlen = 16`.  In
both cases the packet has `users = 1` after dispatch, `netl_recv` returns the
length and delivers the data, but `users` is still 1 afterwards, although no
queue holds the packet any more, and `incr_rcv_buffer_pos` steps over the
slot. -/
theorem C1_recv_that_fits_keeps_users :
    (∃ st1 st2, rx_thread_step target sc_bound rx_msg rx_short (fun _ => 1) = some st1 ∧
      (st1.pkt 0).users = 1 ∧ (st1.sock 0).rcv_queue = some 0 ∧
      netl_recv target st1 0 [0, 0, 0, 0] 4 none
        = recv_result.returned 4 st2 [9, 8, 7, 6] none ∧
      (st2.pkt 0).users = 1 ∧ (∀ i < MAX_SOCKETS, (st2.sock i).rcv_queue = none) ∧
      st2.rcv_buffer_pos = 0 ∧ (incr_rcv_buffer_pos st2).2.rcv_buffer_pos = 1) ∧
    (∃ st1 st2, rx_thread_step target sc_raw_bound rx_msg c2_rxbuf (fun _ => 1) = some st1 ∧
      (st1.pkt 0).users = 1 ∧ (st1.sock 0).rcv_queue = some 0 ∧
      netl_recv target st1 0 (List.replicate 16 0) 16 none
        = recv_result.returned 16 st2 ([0, 100, 255, 255, 0, 10] ++ c2_payload) none ∧
      (st2.pkt 0).users = 1 ∧ (∀ i < MAX_SOCKETS, (st2.sock i).rcv_queue = none) ∧
      st2.rcv_buffer_pos = 0 ∧ (incr_rcv_buffer_pos st2).2.rcv_buffer_pos = 1) := by
  constructor
  · exact ⟨_, _, rfl, by decide, by decide, rfl, by decide, by decide, by decide, by decide⟩
  · exact ⟨_, _, rfl, by decide, by decide, rfl, by decide, by decide, by decide, by decide⟩

/-! ### C2: round trip of a datagram -/

/-- C2: evaluation of the code where the claim fails.  The frame built by
`netl_send_to` for 10 payload bytes and port 100 carries the length in network
order; it is dispatched to socket 0 bound to port 100, whose `netl_recv` reads
the length field in host order as 2560.  With `maxlen = 10` the call returns 0
and delivers nothing; with `maxlen = 2560` it returns 2560. -/
theorem C2_round_trip_length_not_converted :
    ∃ st1 st2 st3 dest3, c2_sent.1 = 19 ∧
      read_bytes c2_sent.2.cc110x_pkt.data 0 16
        = [0, 100, 255, 255, 0, 10] ++ c2_payload ∧
      rx_thread_step target sc_bound rx_msg c2_rxbuf (fun _ => 1) = some st1 ∧
      (st1.sock 0).rcv_queue = some 0 ∧
      netl_recv target st1 0 (List.replicate 10 0) 10 (some ⟨0, 0⟩)
        = recv_result.returned 0 st2 (List.replicate 10 0) (some ⟨0, 0⟩) ∧
      netl_recv target st1 0 (List.replicate 10 0) 2560 (some ⟨0, 0⟩)
        = recv_result.returned 2560 st3 dest3 (some ⟨65535, 33⟩) := by
  refine ⟨_, _, _, _, by decide, by decide, rfl, by decide, rfl, rfl⟩

/-! ### C3: closing a bound socket -/

/-- C3: evaluation of the code where the claim fails.  Sockets 0 and 1 are
live, socket 0 is bound to port 100.  `netl_close(0)` returns 0 and the slot
gets the identity `SOCK_UNDEF`, but it keeps port 100 and its owner, and
`netl_bind(1, 100)` by the other socket fails with 255 and changes nothing. -/
theorem C3_close_keeps_the_binding :
    ∃ st1, netl_close target sc_two 0 = (0, st1) ∧
      (st1.sock 0).id = target.SOCK_UNDEF ∧ (st1.sock 0).port = 100 ∧
      (st1.sock 0).dest_pid = 5 ∧ (st1.sock 1).id = 1 ∧
      netl_bind st1 1 100 6 = (255, st1) := by
  refine ⟨_, rfl, by decide, by decide, by decide, by decide, rfl⟩

/-! ### C4: port exclusivity -/

/-- Replacing one entry keeps the ports exclusive when the new port is zero,
the entry's old port, or a port no slot holds. -/
theorem ports_exclusive_set (st : State) (i : Nat) (s : sock_t)
    (hlen : st.sockets.length = MAX_SOCKETS) (hi : i < MAX_SOCKETS)
    (hex : ports_exclusive st)
    (hs : s.port = 0 ∨ s.port = (st.sock i).port ∨ ∀ k < MAX_SOCKETS, (st.sock k).port ≠ s.port) :
    ports_exclusive (st.set_sock i s) := by
  have hil : i < st.sockets.length := by rw [hlen]; exact hi
  intro a ha b hb hab
  rw [sock_set_sock st i a s hil, sock_set_sock st i b s hil]
  by_cases hai : a = i
  · have hbi : ¬ b = i := fun e => hab (hai.trans e.symm)
    simp only [hai, hbi, if_true, if_false]
    intro h0
    rcases hs with h | h | h
    · exact absurd h h0
    · rw [h]
      exact hex i hi b hb (fun e => hbi e.symm) (h ▸ h0)
    · exact fun e => h b hb e.symm
  · simp only [hai, if_false]
    by_cases hbi : b = i
    · simp only [hbi, if_true]
      intro h0
      rcases hs with h | h | h
      · rw [h]; exact h0
      · rw [h]
        exact hex a ha i hi hai h0
      · exact h a ha
    · simp only [hbi, if_false]
      exact hex a ha b hb hab

theorem table_inv_set (st : State) (i : Nat) (s : sock_t) (hi : i < MAX_SOCKETS)
    (h : table_inv st)
    (hs : s.port = 0 ∨ s.port = (st.sock i).port ∨ ∀ k < MAX_SOCKETS, (st.sock k).port ≠ s.port) :
    table_inv (st.set_sock i s) :=
  ⟨(length_set_sock st i s).trans h.1, ports_exclusive_set st i s h.1 hi h.2 hs⟩

theorem init_sockets (P : Platform) (pid : Int) :
    (netl_init P (boot P) pid).sockets =
      [{ sock_zero with id := P.SOCK_UNDEF }, { sock_zero with id := P.SOCK_UNDEF },
       { sock_zero with id := P.SOCK_UNDEF }] := by
  have hb : (!(boot P).did_init) = true := rfl
  unfold netl_init
  simp only [hb, if_true]
  split_ifs <;> rfl

theorem table_inv_init (P : Platform) (pid : Int) : table_inv (netl_init P (boot P) pid) := by
  constructor
  · rw [init_sockets]; rfl
  · intro i hi j hj _ h0
    exfalso
    apply h0
    have hi3 : i = 0 ∨ i = 1 ∨ i = 2 := by
      unfold MAX_SOCKETS at hi
      omega
    unfold State.sock
    rw [init_sockets]
    rcases hi3 with rfl | rfl | rfl <;> rfl

theorem table_inv_socket (P : Platform) (st : State) (type : Nat) (h : table_inv st) :
    table_inv (netl_socket P st type).2 := by
  cases hg : get_socket st P.SOCK_UNDEF with
  | none => rw [netl_socket_none P st type hg]; exact h
  | some i =>
    rw [netl_socket_some P st type i h.1 hg]
    exact table_inv_set st i _ (get_socket_some hg).1 h (Or.inr (Or.inl rfl))

theorem table_inv_unbind (P : Platform) (st : State) (s : Int) (h : table_inv st) :
    table_inv (netl_unbind P st s).2 := by
  unfold netl_unbind
  cases hg : get_socket st s with
  | none => exact h
  | some i =>
    simp only
    split_ifs
    · exact table_inv_set st i _ (get_socket_some hg).1 h (Or.inl rfl)
    · exact h

theorem table_inv_bind (st : State) (s : Int) (port : Nat) (pid : Int) (h : table_inv st) :
    table_inv (netl_bind st s port pid).2 := by
  unfold netl_bind
  cases hg : get_socket st s with
  | none => exact h
  | some i =>
    cases hp : get_socket_port st port with
    | some e =>
      simp only
      split_ifs <;> exact h
    | none =>
      exact table_inv_set st i _ (get_socket_some hg).1 h
        (Or.inr (Or.inr (get_socket_port_none hp)))

theorem table_inv_close (P : Platform) (st : State) (s : Int) (h : table_inv st) :
    table_inv (netl_close P st s).2 := by
  unfold netl_close
  cases hg : get_socket st s with
  | none => exact h
  | some i =>
    apply table_inv_unbind
    exact table_inv_set st i _ (get_socket_some hg).1 h (Or.inr (Or.inl rfl))

theorem table_inv_of_reachable (P : Platform) (st : State) (h : TableReachable P st) :
    table_inv st := by
  induction h with
  | init pid => exact table_inv_init P pid
  | socket type _ ih => exact table_inv_socket P _ type ih
  | bind s port pid _ ih => exact table_inv_bind _ s port pid ih
  | unbind s _ ih => exact table_inv_unbind P _ s ih
  | close s _ ih => exact table_inv_close P _ s ih

/-- C4: in every state reachable from `netl_init` by create, bind, unbind and
close, no two table slots hold the same non-zero port; and for two live
sockets with different identities, the first of them bound, a `netl_bind` of
the second to the first one's port returns the failure value 255 and changes no
variable, while a `netl_bind` of the first to its own port returns 0 and
changes no variable. -/
theorem C4_port_exclusivity (P : Platform) (st : State) (hr : TableReachable P st) :
    ports_exclusive st ∧
    ∀ i < MAX_SOCKETS, ∀ j < MAX_SOCKETS,
      (st.sock i).id ≠ P.SOCK_UNDEF → (st.sock j).id ≠ P.SOCK_UNDEF →
      (st.sock i).id ≠ (st.sock j).id → sock_is_bound P (st.sock i) = true →
      ∀ pid : Int,
        netl_bind st (st.sock j).id (st.sock i).port pid = (255, st) ∧
        netl_bind st (st.sock i).id (st.sock i).port pid = (0, st) := by
  have hinv := table_inv_of_reachable P st hr
  refine ⟨hinv.2, ?_⟩
  intro i hi j hj _ _ hne hb pid
  have hp0 : (st.sock i).port ≠ 0 := by
    unfold sock_is_bound at hb
    simp at hb
    exact hb.1
  obtain ⟨e, he⟩ := get_socket_port_isSome hi (rfl : (st.sock i).port = (st.sock i).port)
  have hes := get_socket_port_some he
  have hei : e = i := by
    by_contra hc
    exact hinv.2 i hi e hes.1 (fun x => hc x.symm) hp0 hes.2.symm
  subst hei
  obtain ⟨kj, hkj⟩ := get_socket_isSome hj (rfl : (st.sock j).id = (st.sock j).id)
  obtain ⟨ki, hki⟩ := get_socket_isSome hi (rfl : (st.sock e).id = (st.sock e).id)
  have hkjs := (get_socket_some hkj).2
  have hkis := (get_socket_some hki).2
  constructor
  · have hne2 : ¬ (st.sock j).id = (st.sock e).id := fun x => hne x.symm
    simp [netl_bind, hkj, he, hkjs, hne2, to_uint8_neg_one]
  · simp [netl_bind, hki, he, hkis]

/-- C4 at the table with sockets 0 and 1, socket 0 bound to port 100. -/
theorem C4_port_exclusivity_witness :
    TableReachable target sc_two ∧ ports_exclusive sc_two ∧
      netl_bind sc_two 1 100 6 = (255, sc_two) ∧ netl_bind sc_two 0 100 6 = (0, sc_two) :=
  have hr : TableReachable target sc_two :=
    TableReachable.bind 0 100 5
      (TableReachable.socket 0 (TableReachable.socket 0 (TableReachable.init 7)))
  ⟨hr, (C4_port_exclusivity target sc_two hr).1,
    (C4_port_exclusivity target sc_two hr).2 0 (by decide) 1 (by decide) (by decide)
      (by decide) (by decide) (by decide) 6⟩

/-! ### C5: identities -/

theorem run_calls_spec (P : Platform) (hbits : 0 < P.UINT_BITS) (cs : List sock_call) :
    ∀ st : State, st.sockets.length = MAX_SOCKETS →
      st.socket_nextid + num_creates cs ≤ 2 ^ (P.UINT_BITS - 1) →
      (∀ x ∈ (run_calls P st cs).1, (st.socket_nextid : Int) ≤ x) ∧
      (run_calls P st cs).1.Pairwise (· < ·) ∧
      (run_calls P st cs).2.socket_nextid = st.socket_nextid + (run_calls P st cs).1.length := by
  induction cs with
  | nil =>
    intro st _ _
    simp [run_calls]
  | cons c cs ih =>
    intro st hlen hw
    cases c with
    | close s =>
      simp only [num_creates] at hw
      have hf := netl_close_frame P st s
      have h := ih (netl_close P st s).2 (hf.1.trans hlen) (by rw [hf.2]; omega)
      rw [hf.2] at h
      simpa [run_calls] using h
    | socket type =>
      simp only [num_creates] at hw
      cases hg : get_socket st P.SOCK_UNDEF with
      | none =>
        have h := ih st hlen (by omega)
        simpa [run_calls, netl_socket_none P st type hg] using h
      | some i =>
        have hn : st.socket_nextid < 2 ^ (P.UINT_BITS - 1) := by omega
        have h2 : 2 ^ P.UINT_BITS = 2 * 2 ^ (P.UINT_BITS - 1) := by
          have e : P.UINT_BITS = (P.UINT_BITS - 1) + 1 := by omega
          rw [e, Nat.pow_succ, Nat.add_sub_cancel]
          omega
        have hm : (st.socket_nextid + 1) % UINT_RANGE P = st.socket_nextid + 1 :=
          Nat.mod_eq_of_lt (by unfold UINT_RANGE; omega)
        have hs := netl_socket_some P st type i hlen hg
        rw [to_int_small P _ hn, hm] at hs
        have h := ih (netl_socket P st type).2
          (by rw [hs]; exact (length_set_sock _ _ _).trans hlen)
          (by rw [hs]; show st.socket_nextid + 1 + num_creates cs ≤ _; omega)
        have hne : ¬ ((st.socket_nextid : Int) = -1) := by omega
        simp only [run_calls, hs, hne, if_false] at h ⊢
        obtain ⟨h1, h2, h3⟩ := h
        refine ⟨?_, ?_, ?_⟩
        · intro x hx
          rcases List.mem_cons.mp hx with rfl | hx
          · exact le_refl _
          · have := h1 x hx
            push_cast at this
            omega
        · refine List.Pairwise.cons ?_ h2
          intro x hx
          have := h1 x hx
          push_cast at this
          omega
        · rw [h3, List.length_cons]
          show st.socket_nextid + 1 + _ = _
          omega

theorem churn_step (P : Platform) (st : State) (hlen : st.sockets.length = MAX_SOCKETS)
    (hfree : ∀ i < MAX_SOCKETS, (st.sock i).id = P.SOCK_UNDEF) :
    (netl_close P (netl_socket P st 0).2 (netl_socket P st 0).1).2.sockets.length
        = MAX_SOCKETS ∧
      (∀ i < MAX_SOCKETS,
        ((netl_close P (netl_socket P st 0).2 (netl_socket P st 0).1).2.sock i).id
          = P.SOCK_UNDEF) ∧
      (netl_close P (netl_socket P st 0).2 (netl_socket P st 0).1).2.socket_nextid
        = (st.socket_nextid + 1) % UINT_RANGE P := by
  have hf := hfree
  rw [forall_lt_max] at hf
  have hg : get_socket st P.SOCK_UNDEF = some 0 := by
    rw [get_socket_eq, if_pos hf.1]
  have hs := netl_socket_some P st 0 0 hlen hg
  have hl1 := netl_socket_frame P st 0 hlen
  have hcf := netl_close_frame P (netl_socket P st 0).2 (netl_socket P st 0).1
  refine ⟨hcf.1.trans hl1, ?_, ?_⟩
  · have h0 : (0 : Nat) < st.sockets.length := by rw [hlen]; decide
    rw [hs]
    simp only
    intro i hi
    have hg1 : get_socket
        ({ st.set_sock 0 { st.sock 0 with id := to_int P st.socket_nextid, blocking := true,
                                          rcv_queue := none, type := 0 } with
           socket_nextid := (st.socket_nextid + 1) % UINT_RANGE P } : State)
        (to_int P st.socket_nextid) = some 0 := by
      rw [get_socket_eq, sock_with_nextid, sock_set_sock st 0 0 _ h0]
      simp
    unfold netl_close
    rw [hg1]
    simp only
    rw [netl_unbind_id P _ _ (by
      rw [length_set_sock]
      exact (length_set_sock _ _ _).trans hlen)]
    have h0' : (0 : Nat) < ({ st.set_sock 0 { st.sock 0 with
        id := to_int P st.socket_nextid, blocking := true, rcv_queue := none, type := 0 } with
        socket_nextid := (st.socket_nextid + 1) % UINT_RANGE P } : State).sockets.length := by
      show 0 < (st.set_sock 0 _).sockets.length
      rw [length_set_sock]; exact h0
    rw [sock_set_sock _ 0 i _ h0']
    split_ifs with hi0
    · rfl
    · rw [sock_with_nextid, sock_set_sock st 0 i _ h0, if_neg hi0]
      exact hfree i hi
  · rw [hcf.2, hs]

theorem churn_spec (P : Platform) (pid : Int) (n : Nat) (hn : n < UINT_RANGE P) :
    (churn P n (netl_init P (boot P) pid)).sockets.length = MAX_SOCKETS ∧
      (∀ i < MAX_SOCKETS, ((churn P n (netl_init P (boot P) pid)).sock i).id = P.SOCK_UNDEF) ∧
      (churn P n (netl_init P (boot P) pid)).socket_nextid = n := by
  induction n with
  | zero =>
    refine ⟨(table_inv_init P pid).1, ?_, ?_⟩
    · rw [forall_lt_max]
      simp only [churn, State.sock]
      rw [init_sockets]
      exact ⟨rfl, rfl, rfl⟩
    · have hb : (!(boot P).did_init) = true := rfl
      simp only [churn]
      unfold netl_init
      simp only [hb, if_true]
      split_ifs <;> simp [range_max_sockets, State.set_sock, boot]
  | succ n ih =>
    obtain ⟨h1, h2, h3⟩ := ih (by omega)
    have h := churn_step P _ h1 h2
    simp only [churn]
    refine ⟨h.1, h.2.1, ?_⟩
    rw [h.2.2, h3]
    exact Nat.mod_eq_of_lt hn

/-- On the target, with every slot free and the identity counter at 32767 (the
largest `int`): create, close, create gives the identities 32767 and -32768. -/
theorem run_calls_across_int_max (st : State) (c : Int)
    (hlen : st.sockets.length = MAX_SOCKETS)
    (hfree : ∀ i < MAX_SOCKETS, (st.sock i).id = target.SOCK_UNDEF)
    (hid : st.socket_nextid = 32767) (hc : c = (netl_socket target st 0).1) :
    (run_calls target st [sock_call.socket 0, sock_call.close c, sock_call.socket 0]).1
        = [32767, -32768] ∧
      (run_calls target st
        [sock_call.socket 0, sock_call.close c, sock_call.socket 0]).2.socket_nextid
        = 32769 := by
  subst hc
  have hf := hfree
  rw [forall_lt_max] at hf
  have hg : get_socket st target.SOCK_UNDEF = some 0 := by
    rw [get_socket_eq, if_pos hf.1]
  have h1 : (netl_socket target st 0).1 = 32767 := by
    rw [netl_socket_some target st 0 0 hlen hg]
    dsimp only
    rw [hid]
    decide
  obtain ⟨k1, k2, k3⟩ := churn_step target st hlen hfree
  rw [hid] at k3
  have kf := k2
  rw [forall_lt_max] at kf
  have hg2 : get_socket (netl_close target (netl_socket target st 0).2
      (netl_socket target st 0).1).2 target.SOCK_UNDEF = some 0 := by
    rw [get_socket_eq, if_pos kf.1]
  have h2 := netl_socket_some target _ 0 0 k1 hg2
  rw [k3] at h2
  have e1 : to_int target ((32767 + 1) % UINT_RANGE target) = -32768 := by decide
  have e2 : ((32767 + 1) % UINT_RANGE target + 1) % UINT_RANGE target = 32769 := by decide
  rw [e1, e2] at h2
  simp only [run_calls]
  rw [h2, h1]
  constructor
  · simp
  · simp

/-- C5: the claim fails before the identity counter wraps.  After 32767
create-and-close cycles on the target the counter is 32767, far below
`UINT_MAX`; a create, a close and a create then return the identities 32767
and -32768, which are not increasing, and leave the counter at 32769: the
`int` identity passes its largest value at half the range of the `uint`
counter. -/
theorem C5_identities_decrease_past_int_max :
    (churn target 32767 sc_init).socket_nextid = 32767 ∧ 32769 < UINT_MAX target ∧
      (run_calls target (churn target 32767 sc_init)
        [sock_call.socket 0, sock_call.close 32767, sock_call.socket 0]).1
          = [32767, -32768] ∧
      ¬ (run_calls target (churn target 32767 sc_init)
        [sock_call.socket 0, sock_call.close 32767, sock_call.socket 0]).1.Pairwise (· < ·) ∧
      (run_calls target (churn target 32767 sc_init)
        [sock_call.socket 0, sock_call.close 32767, sock_call.socket 0]).2.socket_nextid
          = 32769 := by
  have h := churn_spec target 7 32767 (by decide)
  unfold sc_init
  have hg : get_socket (churn target 32767 (netl_init target (boot target) 7))
      target.SOCK_UNDEF = some 0 := by
    rw [get_socket_eq, if_pos (h.2.1 0 (by decide))]
  have hc : (32767 : Int)
      = (netl_socket target (churn target 32767 (netl_init target (boot target) 7)) 0).1 := by
    rw [netl_socket_some target _ 0 0 h.1 hg]
    dsimp only
    rw [h.2.2]
    decide
  have hr := run_calls_across_int_max _ 32767 h.1 h.2.1 h.2.2 hc
  refine ⟨h.2.2, by decide, hr.1, ?_, hr.2⟩
  rw [hr.1]
  decide

/-- C5 (amended): for every sequence of `netl_socket` and `netl_close` calls
during which the identities stay within the non-negative range of `int` (the
counter plus the number of creates is at most `2 ^ (UINT_BITS - 1)`, which is
`INT_MAX + 1`), the identities returned by the successful
`netl_socket` calls are strictly increasing in call order, hence pairwise
different, whatever slots they occupy; and the identity counter advances by
exactly the number of successful creates, so a failed create consumes no
identity. -/
theorem C5_identities_strictly_increasing (P : Platform) (st : State) (cs : List sock_call)
    (hbits : 0 < P.UINT_BITS) (hlen : st.sockets.length = MAX_SOCKETS)
    (hwrap : st.socket_nextid + num_creates cs ≤ 2 ^ (P.UINT_BITS - 1)) :
    (run_calls P st cs).1.Pairwise (· < ·) ∧
    (run_calls P st cs).1.Nodup ∧
    (run_calls P st cs).2.socket_nextid
      = st.socket_nextid + (run_calls P st cs).1.length := by
  have h := run_calls_spec P hbits cs st hlen hwrap
  exact ⟨h.2.1, h.2.1.imp (fun hlt => ne_of_lt hlt), h.2.2⟩

/-- C5 on a sequence of calls that reuses two slots and contains a failing
create: the identities returned are 0, 1, 2, 3, 4. -/
theorem C5_identities_strictly_increasing_witness :
    (run_calls target sc_init c5_calls).1 = [0, 1, 2, 3, 4] ∧
      (run_calls target sc_init c5_calls).1.Pairwise (· < ·) ∧
      (run_calls target sc_init c5_calls).1.Nodup ∧
      (run_calls target sc_init c5_calls).2.socket_nextid
        = sc_init.socket_nextid + (run_calls target sc_init c5_calls).1.length :=
  ⟨by decide,
    C5_identities_strictly_increasing target sc_init c5_calls (by decide) (by decide)
      (by decide)⟩

/-! ### C6: raw sockets -/

theorem dispatch_keeps_refl (pk : Nat) (st : State) : dispatch_keeps pk st st :=
  ⟨rfl, rfl, rfl, rfl, fun _ => ⟨rfl, rfl, rfl, rfl, rfl⟩, rfl, rfl⟩

theorem dispatch_keeps_trans {pk : Nat} {a b c : State} (h1 : dispatch_keeps pk a b)
    (h2 : dispatch_keeps pk b c) : dispatch_keeps pk a c := by
  obtain ⟨a1, a2, a3, a4, a5, a6, a7⟩ := h1
  obtain ⟨b1, b2, b3, b4, b5, b6, b7⟩ := h2
  refine ⟨b1.trans a1, b2.trans a2, b3.trans a3, b4.trans a4, fun k => ?_, b6.trans a6,
    b7.trans a7⟩
  obtain ⟨x1, x2, x3, x4, x5⟩ := a5 k
  obtain ⟨y1, y2, y3, y4, y5⟩ := b5 k
  exact ⟨y1.trans x1, y2.trans x2, y3.trans x3, y4.trans x4, y5.trans x5⟩

theorem sock_should_receive_keeps {pk : Nat} {st st1 : State} (h : dispatch_keeps pk st st1)
    (P : Platform) (k udph : Nat) :
    sock_should_receive P st1 (st1.sock k) udph = sock_should_receive P st (st.sock k) udph := by
  obtain ⟨_, _, htype, hport, _⟩ := h.2.2.2.2.1 k
  unfold sock_should_receive
  rw [h.1, hport, htype]

theorem rcv_queue_add_empty (st : State) (j pk : Nat) (hq : (st.sock j).rcv_queue = none) :
    rcv_queue_add st j pk =
      some ((st.set_pkt pk { st.pkt pk with rcv_queue_next := none }).set_sock j
        { st.sock j with rcv_queue := some pk }) := by
  have e : ((st.set_pkt pk { st.pkt pk with rcv_queue_next := none }).sock j)
      = st.sock j := rfl
  unfold rcv_queue_add
  simp only [e, hq]

/-- Delivery of pool slot `pk` to the empty queue of `sockets[j]`. -/
theorem deliver_keeps (st : State) (j pk : Nat) (hj : j < st.sockets.length) (u : Nat) :
    dispatch_keeps pk st
      (((st.set_pkt pk { st.pkt pk with users := u }).set_pkt pk
          { (st.set_pkt pk { st.pkt pk with users := u }).pkt pk with
            rcv_queue_next := none }).set_sock j
        { st.sock j with rcv_queue := some pk }) := by
  have hp1 := pkt_set_pkt_self st pk { st.pkt pk with users := u } rfl rfl
  have hp2 := pkt_set_pkt_self (st.set_pkt pk { st.pkt pk with users := u }) pk
    { (st.set_pkt pk { st.pkt pk with users := u }).pkt pk with rcv_queue_next := none } rfl rfl
  refine ⟨rfl, length_set_sock _ _ _, ?_, rfl, ?_, hp2.1.trans hp1.1, hp2.2.trans hp1.2⟩
  · show (State.set_pkt _ _ _).pkt_rcv_buffer.length = _
    rw [length_set_pkt, length_set_pkt]
  · intro k
    simp only [sock_set_sock_if, sock_set_pkt, sockets_length_set_pkt, hj, and_true]
    split_ifs with hk
    · subst hk
      exact ⟨rfl, rfl, rfl, rfl, rfl⟩
    · exact ⟨rfl, rfl, rfl, rfl, rfl⟩

/-- One turn of the dispatcher's loop on a socket whose queue is empty. -/
theorem handle_radio_packet_sock_spec (P : Platform) (pk udph : Nat) (ret : Int) (st : State)
    (b : Bool) (j : Nat) (hj : j < st.sockets.length) (hq : (st.sock j).rcv_queue = none) :
    ∃ st1 b1, handle_radio_packet_sock P pk udph ret (st, b) j = some (st1, b1) ∧
      dispatch_keeps pk st st1 ∧ (∀ k, k ≠ j → st1.sock k = st.sock k) ∧
      ((st.sock j).dest_pid ≠ P.KERNEL_PID_UNDEF →
        sock_should_receive P st (st.sock j) udph = true → ret = 1 →
        (st1.sock j).rcv_queue = some pk) := by
  unfold handle_radio_packet_sock
  by_cases h1 : (st.sock j).dest_pid = P.KERNEL_PID_UNDEF
  · exact ⟨st, b, by simp [h1], dispatch_keeps_refl pk st, fun _ _ => rfl,
      fun h => absurd h1 h⟩
  by_cases h2 : sock_should_receive P st (st.sock j) udph = true
  swap
  · exact ⟨st, b, by simp [h1, h2], dispatch_keeps_refl pk st, fun _ _ => rfl,
      fun _ h => absurd h h2⟩
  by_cases h3 : ret = 1
  swap
  · exact ⟨st, b, by simp [h1, h2, h3], dispatch_keeps_refl pk st, fun _ _ => rfl,
      fun _ _ h => absurd h h3⟩
  refine ⟨_, true, ?_, deliver_keeps st j pk hj (((st.pkt pk).users + 1) % 256), ?_, ?_⟩
  · simp only [h1, h2, h3, bne_iff_ne, ne_eq, not_false_eq_true, if_true, beq_self_eq_true]
    rw [rcv_queue_add_empty (st.set_pkt pk _) j pk hq]
    rfl
  · intro k hk
    simp only [sock_set_sock_if, sock_set_pkt, sockets_length_set_pkt, hj, and_true, if_neg hk]
  · intro _ _ _
    simp only [sock_set_sock_if, sock_set_pkt, sockets_length_set_pkt, hj, and_true, if_true]

/-- The dispatcher's loop over sockets whose queues are empty terminates, and
every socket it should deliver to, whose notification is accepted, gets the
packet as the head of its queue. -/
theorem handle_radio_packet_loop_spec (P : Platform) (pk udph : Nat) (try_send : Nat → Int)
    (is : List Nat) :
    ∀ (st : State) (b : Bool), is.Nodup →
      (∀ j ∈ is, j < st.sockets.length ∧ (st.sock j).rcv_queue = none) →
      ∃ st1 b1, handle_radio_packet_loop P pk udph try_send is (st, b) = some (st1, b1) ∧
        dispatch_keeps pk st st1 ∧ (∀ k, k ∉ is → st1.sock k = st.sock k) ∧
        (∀ j ∈ is, (st.sock j).dest_pid ≠ P.KERNEL_PID_UNDEF →
          sock_should_receive P st (st.sock j) udph = true → try_send j = 1 →
          (st1.sock j).rcv_queue = some pk) := by
  induction is with
  | nil =>
    intro st b _ _
    exact ⟨st, b, rfl, dispatch_keeps_refl pk st, fun _ _ => rfl,
      fun j hj => absurd hj (List.not_mem_nil j)⟩
  | cons j js ih =>
    intro st b hnd hall
    have hjn : j ∉ js := (List.nodup_cons.mp hnd).1
    have hj := hall j (List.mem_cons_self j js)
    obtain ⟨st1, b1, hstep, hk1, hother1, hdel1⟩ :=
      handle_radio_packet_sock_spec P pk udph (try_send j) st b j hj.1 hj.2
    have hall1 : ∀ x ∈ js, x < st1.sockets.length ∧ (st1.sock x).rcv_queue = none := by
      intro x hx
      have hxj : x ≠ j := fun e => hjn (e ▸ hx)
      have := hall x (List.mem_cons_of_mem j hx)
      rw [hk1.2.1, hother1 x hxj]
      exact this
    obtain ⟨st2, b2, hloop, hk2, hother2, hdel2⟩ :=
      ih st1 b1 (List.nodup_cons.mp hnd).2 hall1
    refine ⟨st2, b2, ?_, dispatch_keeps_trans hk1 hk2, ?_, ?_⟩
    · simp only [handle_radio_packet_loop, hstep]
      exact hloop
    · intro k hk
      have hkj : k ≠ j := fun e => hk (e ▸ List.mem_cons_self j js)
      have hkjs : k ∉ js := fun e => hk (List.mem_cons_of_mem j e)
      rw [hother2 k hkjs, hother1 k hkj]
    · intro x hx hown hrecv hacc
      rcases List.mem_cons.mp hx with rfl | hxs
      · rw [hother2 x hjn]
        exact hdel1 hown hrecv hacc
      · have hxj : x ≠ j := fun e => hjn (e ▸ hxs)
        apply hdel2 x hxs
        · rw [hother1 x hxj]; exact hown
        · rw [sock_should_receive_keeps hk1]; exact hrecv
        · exact hacc

/-- With no packet pending on any socket, `handle_radio_packet` returns, and
every socket it should deliver to, whose notification is accepted, has the
packet as the head of its queue. -/
theorem handle_radio_packet_spec (P : Platform) (st : State) (pk udph : Nat)
    (try_send : Nat → Int) (hlen : st.sockets.length = MAX_SOCKETS)
    (hdata : (st.pkt pk).data = some udph)
    (hq : ∀ j < MAX_SOCKETS, (st.sock j).rcv_queue = none) :
    ∃ st1, handle_radio_packet P st pk try_send = some st1 ∧ dispatch_keeps pk st st1 ∧
      (∀ j < MAX_SOCKETS, (st.sock j).dest_pid ≠ P.KERNEL_PID_UNDEF →
        sock_should_receive P st (st.sock j) udph = true → try_send j = 1 →
        (st1.sock j).rcv_queue = some pk) := by
  have hall : ∀ j ∈ List.range MAX_SOCKETS,
      j < st.sockets.length ∧ (st.sock j).rcv_queue = none := by
    intro j hj
    have hj3 : j < MAX_SOCKETS := List.mem_range.mp hj
    exact ⟨by rw [hlen]; exact hj3, hq j hj3⟩
  obtain ⟨st1, b1, hloop, hk, _, hdel⟩ :=
    handle_radio_packet_loop_spec P pk udph try_send (List.range MAX_SOCKETS) st false
      (List.nodup_range MAX_SOCKETS) hall
  have hdel2 : ∀ j < MAX_SOCKETS, (st.sock j).dest_pid ≠ P.KERNEL_PID_UNDEF →
      sock_should_receive P st (st.sock j) udph = true → try_send j = 1 →
      (st1.sock j).rcv_queue = some pk :=
    fun j hj => hdel j (List.mem_range.mpr hj)
  unfold handle_radio_packet
  rw [hdata]
  simp only [hloop]
  cases b1 with
  | true => exact ⟨st1, by simp, hk, hdel2⟩
  | false =>
    exact ⟨{ st1 with stats := { st1.stats with
        unhandled_packet := (st1.stats.unhandled_packet + 1) % UINT_RANGE P } },
      by simp, hk, hdel2⟩

theorem incr_loop_lt (buf : List radio_pkt_t) :
    ∀ n i pos, pos < RCV_BUF_SIZE → (incr_loop buf n i pos).2 < RCV_BUF_SIZE := by
  intro n
  induction n with
  | zero => intro i pos h; exact h
  | succ n ih =>
    intro i pos h
    unfold incr_loop
    split_ifs with h1 h2
    · exact ih _ _ (by decide)
    · apply ih
      unfold RCV_BUF_SIZE at h h2 ⊢
      simp at h2
      omega
    · exact h

theorem incr_rcv_buffer_pos_snd (st : State) :
    (incr_rcv_buffer_pos st).2 =
      { st with rcv_buffer_pos :=
          (incr_loop st.pkt_rcv_buffer RCV_BUF_SIZE 0 st.rcv_buffer_pos).2 } := by
  unfold incr_rcv_buffer_pos
  simp only
  split_ifs <;> rfl

/-- What `receive_cc110x_packet` stores, for a pool slot `pk` of the pool. -/
theorem receive_cc110x_packet_spec (P : Platform) (st : State) (pk pos : Nat)
    (rxbuf : List rx_buffer_t) (hpk : pk < st.pkt_rcv_buffer.length) :
    (∀ k, (receive_cc110x_packet P st pk pos rxbuf).sock k = st.sock k) ∧
    (receive_cc110x_packet P st pk pos rxbuf).sockets.length = st.sockets.length ∧
    (receive_cc110x_packet P st pk pos rxbuf).rcv_buffer_pos = st.rcv_buffer_pos ∧
    ((receive_cc110x_packet P st pk pos rxbuf).pkt pk).data
      = some (st.rcv_buffer_pos * P.CC1100_MAX_DATA_LENGTH) ∧
    ((receive_cc110x_packet P st pk pos rxbuf).pkt pk).length
      = ((rx_entry P rxbuf pos).packet.length + 256 - P.CC1100_HEADER_LENGTH % 256) % 256 ∧
    (receive_cc110x_packet P st pk pos rxbuf).data_buffer
      = write_bytes st.data_buffer (st.rcv_buffer_pos * P.CC1100_MAX_DATA_LENGTH)
          (read_bytes (rx_entry P rxbuf pos).packet.data 0 P.CC1100_MAX_DATA_LENGTH) := by
  refine ⟨fun _ => rfl, rfl, rfl, ?_, ?_, rfl⟩
  · show ((st.set_pkt pk _).pkt pk).data = _
    rw [pkt_set_pkt st pk pk _ hpk, if_pos rfl]
  · show ((st.set_pkt pk _).pkt pk).length = _
    rw [pkt_set_pkt st pk pk _ hpk, if_pos rfl]

/-- C6: the claim fails for a raw socket without owner.  Raw socket 0 has just
been created and has no port; a frame arrives and every notification would be
accepted, yet the frame is not queued on the socket: its queue stays empty,
the packet keeps `users = 0`, the frame is counted as unhandled and
`netl_recv` on the socket finds nothing. -/
theorem C6_raw_socket_without_owner_gets_nothing :
    ∃ st1, (c6_raw.sock 0).id = 0 ∧ (c6_raw.sock 0).type = target.SOCK_RAW ∧
      (c6_raw.sock 0).port = 0 ∧
      rx_thread_step target c6_raw rx_msg rx_short (fun _ => 1) = some st1 ∧
      (st1.sock 0).rcv_queue = none ∧ (st1.pkt 0).users = 0 ∧
      st1.stats.unhandled_packet = 1 ∧
      netl_recv target st1 0 (List.replicate 58 0) 58 none = recv_result.waiting st1 := by
  refine ⟨_, by decide, by decide, by decide, rfl, by decide, by decide, by decide, rfl⟩

/-- C6 (amended): a raw socket that has no bound port and has a registered
owner (`dest_pid` is not `KERNEL_PID_UNDEF`) gets every incoming frame,
whatever its destination-port field: when a pool slot is free, no packet is
pending on any socket and the wake notification is accepted, the dispatcher
queues the frame on the socket, and `netl_recv` on it with `maxlen` at least
the frame length `L` returns `L` and copies exactly the first `L` bytes of the
received packet's data, the header included. -/
theorem C6_raw_socket_with_owner_gets_frame (P : Platform) (st : State) (i L maxlen : Nat)
    (m : msg_t) (cc110x_rx_buffer : List rx_buffer_t) (try_send : Nat → Int)
    (dest : List Nat) (info : Option frominfo_t)
    (hbits : 9 ≤ P.UINT_BITS)
    (hlen : st.sockets.length = MAX_SOCKETS)
    (hpl : st.pkt_rcv_buffer.length = RCV_BUF_SIZE)
    (hdb : st.data_buffer.length = RCV_BUF_SIZE * P.CC1100_MAX_DATA_LENGTH)
    (hpos : st.rcv_buffer_pos < RCV_BUF_SIZE)
    (hfree : (incr_rcv_buffer_pos st).1 = 0)
    (hq : ∀ j < MAX_SOCKETS, (st.sock j).rcv_queue = none)
    (hi : get_socket st (st.sock i).id = some i)
    (hraw : (st.sock i).type = P.SOCK_RAW) (hport : (st.sock i).port = 0)
    (hown : (st.sock i).dest_pid ≠ P.KERNEL_PID_UNDEF)
    (hm : m.type = P.CC1100_PKT_RCV_MSG_TYPE) (hacc : try_send i = 1)
    (hfl : (rx_entry P cc110x_rx_buffer (to_uint8 m.value)).packet.length
      = L + P.CC1100_HEADER_LENGTH)
    (hf8 : (rx_entry P cc110x_rx_buffer (to_uint8 m.value)).packet.length < 256)
    (hfd : (rx_entry P cc110x_rx_buffer (to_uint8 m.value)).packet.data.length
      = P.CC1100_MAX_DATA_LENGTH)
    (hL : L ≤ P.CC1100_MAX_DATA_LENGTH) (hmax : L ≤ maxlen) :
    ∃ st1 st2 info1,
      rx_thread_step P st m cc110x_rx_buffer try_send = some st1 ∧
      (st1.sock i).rcv_queue = some st1.rcv_buffer_pos ∧
      netl_recv P st1 (st.sock i).id dest maxlen info =
        recv_result.returned (L : Int) st2
          (write_bytes dest 0
            ((rx_entry P cc110x_rx_buffer (to_uint8 m.value)).packet.data.take L))
          info1 := by
  have hi3 : i < MAX_SOCKETS := (get_socket_some hi).1
  -- the slot chosen by the pool
  have hsnd := incr_rcv_buffer_pos_snd st
  have hpk : (incr_rcv_buffer_pos st).2.rcv_buffer_pos < RCV_BUF_SIZE := by
    rw [hsnd]
    exact incr_loop_lt st.pkt_rcv_buffer RCV_BUF_SIZE 0 st.rcv_buffer_pos hpos
  have hpl2 : (incr_rcv_buffer_pos st).2.pkt_rcv_buffer.length = RCV_BUF_SIZE := by
    rw [hsnd]; exact hpl
  have hsock2 : ∀ k, (incr_rcv_buffer_pos st).2.sock k = st.sock k := by
    intro k; rw [hsnd]; rfl
  have hdb2 : (incr_rcv_buffer_pos st).2.data_buffer = st.data_buffer := by
    rw [hsnd]
  have hlen2 : (incr_rcv_buffer_pos st).2.sockets.length = MAX_SOCKETS := by
    rw [hsnd]; exact hlen
  generalize hr : (incr_rcv_buffer_pos st).2 = r at hpk hpl2 hsock2 hdb2 hlen2
  -- the frame copied into the slot
  obtain ⟨ha1, ha2, ha3, ha4, ha5, ha6⟩ :=
    receive_cc110x_packet_spec P r r.rcv_buffer_pos (to_uint8 m.value) cc110x_rx_buffer
      (by rw [hpl2]; exact hpk)
  have hlenL : ((rx_entry P cc110x_rx_buffer (to_uint8 m.value)).packet.length + 256
      - P.CC1100_HEADER_LENGTH % 256) % 256 = L := by
    omega
  rw [hlenL] at ha5
  -- the dispatcher
  have hshould : sock_should_receive P
      (receive_cc110x_packet P r r.rcv_buffer_pos (to_uint8 m.value) cc110x_rx_buffer)
      ((receive_cc110x_packet P r r.rcv_buffer_pos (to_uint8 m.value) cc110x_rx_buffer).sock i)
      (r.rcv_buffer_pos * P.CC1100_MAX_DATA_LENGTH) = true := by
    rw [ha1, hsock2]
    simp [sock_should_receive, hport, hraw]
  obtain ⟨st1, hh, hk, hdel⟩ := handle_radio_packet_spec P
    (receive_cc110x_packet P r r.rcv_buffer_pos (to_uint8 m.value) cc110x_rx_buffer)
    r.rcv_buffer_pos (r.rcv_buffer_pos * P.CC1100_MAX_DATA_LENGTH) try_send
    (ha2.trans hlen2) ha4
    (by intro j hj; rw [ha1, hsock2]; exact hq j hj)
  have hqueue : (st1.sock i).rcv_queue = some r.rcv_buffer_pos :=
    hdel i hi3 (by rw [ha1, hsock2]; exact hown) hshould hacc
  obtain ⟨k1, k2, k3, k4, k5, k6, k7⟩ := hk
  have hpos1 : st1.rcv_buffer_pos = r.rcv_buffer_pos := k4.trans ha3
  have hids : ∀ k, (st1.sock k).id = (st.sock k).id := by
    intro k
    rw [(k5 k).1, ha1, hsock2]
  have htype : (st1.sock i).type = P.SOCK_RAW := by
    rw [(k5 i).2.2.1, ha1, hsock2]
    exact hraw
  have hget : get_socket st1 (st.sock i).id = some i := by
    rw [get_socket_congr hids]
    exact hi
  have hL8 : L < 2 ^ (P.UINT_BITS - 1) := by
    have : 2 ^ 8 ≤ 2 ^ (P.UINT_BITS - 1) := Nat.pow_le_pow_right (by decide) (by omega)
    omega
  have hread : read_bytes st1.data_buffer (r.rcv_buffer_pos * P.CC1100_MAX_DATA_LENGTH) L
      = (rx_entry P cc110x_rx_buffer (to_uint8 m.value)).packet.data.take L := by
    rw [k1, ha6, hdb2, read_write_bytes]
    · simp [read_bytes, List.take_take, hL]
    · rw [hdb]
      exact Nat.mul_le_mul_right _ (Nat.le_of_lt hpk)
    · simp [read_bytes, hfd, hL]
  have hstep : rx_thread_step P st m cc110x_rx_buffer try_send = some st1 := by
    have h0 : ((incr_rcv_buffer_pos st).1 == 0) = true := by rw [hfree]; rfl
    unfold rx_thread_step
    simp only [hm, beq_self_eq_true, if_true, h0, hr]
    exact hh
  have hrecv : ∃ st2 info1, netl_recv P st1 (st.sock i).id dest maxlen info =
      recv_result.returned (L : Int) st2
        (write_bytes dest 0
          ((rx_entry P cc110x_rx_buffer (to_uint8 m.value)).packet.data.take L)) info1 := by
    unfold netl_recv
    rw [hget]
    simp only [rcv_queue_pop, hqueue]
    unfold netl_recv_deliver
    have hil1 : i < st1.sockets.length := by
      rw [k2, ha2, hlen2]; exact hi3
    have hdbs : ∀ s : sock_t, (st1.set_sock i s).data_buffer = st1.data_buffer := fun _ => rfl
    simp only [pkt_set_sock, k6, ha4, sock_set_sock_if, k7, ha5, hil1, and_self, if_true, htype,
      beq_self_eq_true, hmax, hdbs, hread, to_int_small P L hL8]
    exact ⟨_, _, rfl⟩
  obtain ⟨st2, info1, h2⟩ := hrecv
  exact ⟨st1, st2, info1, hstep, by rw [hpos1]; exact hqueue, h2⟩

set_option maxRecDepth 4096 in
/-- C6 (amended) at raw socket 0 of `c6_owned`, which has no port and owner 5:
a 10-byte frame for port 100 is queued on it and received in full. -/
theorem C6_raw_socket_with_owner_gets_frame_witness :
    ∃ st1 st2 info1,
      rx_thread_step target c6_owned rx_msg rx_short (fun _ => 1) = some st1 ∧
      (st1.sock 0).rcv_queue = some st1.rcv_buffer_pos ∧
      netl_recv target st1 0 (List.replicate 58 0) 58 none =
        recv_result.returned 10 st2
          (write_bytes (List.replicate 58 0) 0 [0, 100, 0, 7, 4, 0, 9, 8, 7, 6]) info1 :=
  C6_raw_socket_with_owner_gets_frame target c6_owned 0 10 58 rx_msg rx_short (fun _ => 1)
    (List.replicate 58 0) none (by decide) (by decide) (by decide) (by decide) (by decide)
    (by decide) (by decide) (by decide) (by decide) (by decide) (by decide) (by decide)
    (by decide) (by decide) (by decide) (by decide) (by decide) (by decide)

/-! ### C7: a new socket -/

/-- C7: evaluation of the code where the claim fails.  Socket 0, bound to port
100, is closed and a new socket is created: it gets identity 1 and the slot of
the closed one, blocking and with an empty queue, but with port 100 and the
old owner, so `sock_is_bound` holds for it and the dispatcher queues a frame
addressed to port 100 on it. -/
theorem C7_new_socket_inherits_binding :
    ∃ st1 st2, netl_socket target (netl_close target sc_bound 0).2 0 = (1, st1) ∧
      (st1.sock 0).id = 1 ∧ (st1.sock 0).blocking = true ∧ (st1.sock 0).rcv_queue = none ∧
      (st1.sock 0).port = 100 ∧ (st1.sock 0).dest_pid = 5 ∧
      sock_is_bound target (st1.sock 0) = true ∧
      rx_thread_step target st1 rx_msg rx_short (fun _ => 1) = some st2 ∧
      (st2.sock 0).rcv_queue = some 0 ∧ (st2.pkt 0).users = 1 := by
  refine ⟨_, _, rfl, by decide, by decide, by decide, by decide, by decide, by decide, rfl,
    by decide, by decide⟩

/-! ### C8: the table is full -/

/-- Short of the wrap of the identity counter, `netl_socket` fails exactly
when no slot is free. -/
theorem netl_socket_ne_iff (P : Platform) (st : State) (type : Nat)
    (hlen : st.sockets.length = MAX_SOCKETS) (hid : st.socket_nextid < UINT_MAX P) :
    (netl_socket P st type).1 ≠ -1 ↔ ∃ i < MAX_SOCKETS, (st.sock i).id = P.SOCK_UNDEF := by
  cases hg : get_socket st P.SOCK_UNDEF with
  | none =>
    rw [netl_socket_none P st type hg]
    have h := (get_socket_eq_none_iff st P.SOCK_UNDEF).mp hg
    constructor
    · intro h1; exact absurd rfl h1
    · rintro ⟨i, hi, he⟩; exact absurd he (h i hi)
  | some i =>
    rw [netl_socket_some P st type i hlen hg]
    have hs := get_socket_some hg
    exact ⟨fun _ => ⟨i, hs.1, hs.2⟩, fun _ => to_int_ne_neg_one P _ hid⟩

/-- C8: the claim fails where the identity counter wraps.  After 65535
create-and-close cycles on the target every slot is free, yet `netl_socket`
returns -1, the failure value. -/
theorem C8_create_fails_with_free_slot :
    (∃ i < MAX_SOCKETS, ((churn target 65535 sc_init).sock i).id = target.SOCK_UNDEF) ∧
      (netl_socket target (churn target 65535 sc_init) 0).1 = -1 := by
  have h := churn_spec target 7 65535 (by decide)
  unfold sc_init
  have hg : get_socket (churn target 65535 (netl_init target (boot target) 7))
      target.SOCK_UNDEF = some 0 := by
    rw [get_socket_eq, if_pos (h.2.1 0 (by decide))]
  refine ⟨⟨0, by decide, h.2.1 0 (by decide)⟩, ?_⟩
  rw [netl_socket_some target _ 0 0 h.1 hg]
  dsimp only
  rw [h.2.2]
  decide

/-- C8 (amended): short of the wrap of the identity counter
(`socket_nextid < UINT_MAX`), `netl_socket` succeeds if and only if one of the
`MAX_SOCKETS` slots is free; with no free slot it returns -1 and changes no
variable; after a successful `netl_close` the next create succeeds; and the
table never holds more than `MAX_SOCKETS` live sockets. -/
theorem C8_socket_succeeds_iff_slot_free (P : Platform) (st : State) (type : Nat)
    (hlen : st.sockets.length = MAX_SOCKETS) (hid : st.socket_nextid < UINT_MAX P) :
    ((netl_socket P st type).1 ≠ -1 ↔ ∃ i < MAX_SOCKETS, (st.sock i).id = P.SOCK_UNDEF) ∧
    ((∀ i < MAX_SOCKETS, (st.sock i).id ≠ P.SOCK_UNDEF) → netl_socket P st type = (-1, st)) ∧
    (∀ s : Int, (netl_close P st s).1 = 0 →
      (netl_socket P (netl_close P st s).2 type).1 ≠ -1) ∧
    ((netl_socket P st type).2.sockets.filter (fun k => k.id != P.SOCK_UNDEF)).length
      ≤ MAX_SOCKETS := by
  refine ⟨netl_socket_ne_iff P st type hlen hid, ?_, ?_, ?_⟩
  · intro h
    exact netl_socket_none P st type (get_socket_none st _ h)
  · intro s hs
    have hf := netl_close_frame P st s
    apply (netl_socket_ne_iff P _ type (hf.1.trans hlen) (by rw [hf.2]; exact hid)).mpr
    exact netl_close_frees P st s hlen hs
  · calc ((netl_socket P st type).2.sockets.filter (fun k => k.id != P.SOCK_UNDEF)).length
        ≤ (netl_socket P st type).2.sockets.length := List.length_filter_le _ _
      _ = MAX_SOCKETS := netl_socket_frame P st type hlen

/-- C8 (amended) at the table with sockets 0 and 1: a slot is free and the
create succeeds. -/
theorem C8_socket_succeeds_iff_slot_free_witness :
    (netl_socket target sc_two 0).1 = 2 ∧
    ((netl_socket target sc_two 0).1 ≠ -1 ↔
      ∃ i < MAX_SOCKETS, (sc_two.sock i).id = target.SOCK_UNDEF) :=
  ⟨by decide, (C8_socket_succeeds_iff_slot_free target sc_two 0 (by decide) (by decide)).1⟩

/-! ### C9: unknown identities -/

/-- C9: the claim fails at `s = SOCK_UNDEF`.  After `netl_init` no socket is
live, so -1 is not the identity of a live socket; yet `netl_bind(-1, 100)`
returns 0 and binds the free slot 0, and `netl_close(-1)` returns 0. -/
theorem C9_sock_undef_is_found :
    (∀ i < MAX_SOCKETS, (sc_init.sock i).id = target.SOCK_UNDEF) ∧
      (netl_bind sc_init (-1) 100 5).1 = 0 ∧
      ((netl_bind sc_init (-1) 100 5).2.sock 0).port = 100 ∧
      ((netl_bind sc_init (-1) 100 5).2.sock 0).dest_pid = 5 ∧
      (netl_close target sc_init (-1)).1 = 0 := by
  decide

/-- C9 (amended): for every integer `s` other than `SOCK_UNDEF` that is not
the identity of a live socket, `netl_bind`, `netl_unbind`, `netl_close`,
`netl_set_nonblock`, `netl_send`, `netl_send_to` and `netl_recv` return their
not-found error (255 for the two `uint8_t` results, -1 otherwise) and leave
every variable unchanged; and once `netl_close(s)` has succeeded on a table
where one slot held `s`, a second `netl_close(s)` fails. -/
theorem C9_unknown_identity_is_rejected (P : Platform) (st : State) (s : Int)
    (hs : s ≠ P.SOCK_UNDEF)
    (hlive : ∀ i < MAX_SOCKETS, (st.sock i).id ≠ P.SOCK_UNDEF → (st.sock i).id ≠ s)
    (port dstport size maxlen : Nat) (pid : Int) (data dest : List Nat)
    (cc110x_send : cc110x_packet_t → Int) (info : Option frominfo_t) :
    netl_bind st s port pid = (255, st) ∧
    netl_unbind P st s = (255, st) ∧
    netl_close P st s = (-1, st) ∧
    netl_set_nonblock st s = (-1, st) ∧
    netl_send P st s data size cc110x_send = (-1, st) ∧
    netl_send_to P st s data size dstport cc110x_send = (-1, st) ∧
    netl_recv P st s dest maxlen info = recv_result.returned (-1) st dest info ∧
    (∀ st0 : State, st0.sockets.length = MAX_SOCKETS →
      (∀ i < MAX_SOCKETS, ∀ j < MAX_SOCKETS,
        (st0.sock i).id = s → (st0.sock j).id = s → i = j) →
      (netl_close P st0 s).1 = 0 →
      netl_close P (netl_close P st0 s).2 s = (-1, (netl_close P st0 s).2)) := by
  have hnone : get_socket st s = none := by
    apply get_socket_none
    intro i hi h
    by_cases hu : (st.sock i).id = P.SOCK_UNDEF
    · exact hs (h ▸ hu)
    · exact hlive i hi hu h
  refine ⟨?_, ?_, ?_, ?_, ?_, ?_, ?_, ?_⟩
  · simp [netl_bind, hnone, to_uint8]
  · simp [netl_unbind, hnone, to_uint8]
  · simp [netl_close, hnone]
  · simp [netl_set_nonblock, hnone]
  · simp [netl_send, hnone]
  · simp [netl_send_to, hnone]
  · simp [netl_recv, hnone]
  · intro st0 hlen huniq hclose
    have hs2 : ¬ P.SOCK_UNDEF = s := fun e => hs e.symm
    have h3 : (0 : Nat) < st0.sockets.length ∧ 1 < st0.sockets.length ∧
        2 < st0.sockets.length := by
      rw [hlen]; decide
    have hu := huniq
    simp only [forall_lt_max] at hu
    obtain ⟨⟨h00, h01, h02⟩, ⟨h10, h11, h12⟩, ⟨h20, h21, h22⟩⟩ := hu
    have key : get_socket (netl_close P st0 s).2 s = none := by
      have hg := get_socket_eq st0 s
      split_ifs at hg with a b c
      · have e1 : ¬ (st0.sock 1).id = s := fun e => absurd (h01 a e) (by decide)
        have e2 : ¬ (st0.sock 2).id = s := fun e => absurd (h02 a e) (by decide)
        simp [netl_close, hg, netl_unbind, get_socket_eq, sock_set_sock, h3, hs2, e1, e2]
      · have e2 : ¬ (st0.sock 2).id = s := fun e => absurd (h12 b e) (by decide)
        simp [netl_close, hg, netl_unbind, get_socket_eq, sock_set_sock, h3, hs2, a, e2]
      · simp [netl_close, hg, netl_unbind, get_socket_eq, sock_set_sock, h3, hs2, a, b]
      · simp [netl_close, hg] at hclose
    exact netl_close_none P _ s key

/-- C9 (amended) at the table with sockets 0 and 1 and the unknown identity 7,
and for the second close of socket 0. -/
theorem C9_unknown_identity_is_rejected_witness :
    netl_close target sc_two 7 = (-1, sc_two) ∧
      netl_recv target sc_two 7 [] 0 none = recv_result.returned (-1) sc_two [] none ∧
      (netl_close target sc_two 0).1 = 0 ∧
      netl_close target (netl_close target sc_two 0).2 0
        = (-1, (netl_close target sc_two 0).2) :=
  ⟨(C9_unknown_identity_is_rejected target sc_two 7 (by decide) (by decide) 0 0 0 0 0 [] []
      drv_ok none).2.2.1,
    (C9_unknown_identity_is_rejected target sc_two 7 (by decide) (by decide) 0 0 0 0 0 [] []
      drv_ok none).2.2.2.2.2.2.1,
    by decide,
    (C9_unknown_identity_is_rejected target sc_init 0 (by decide) (by decide) 0 0 0 0 0 [] []
      drv_ok none).2.2.2.2.2.2.2 sc_two (by decide) (by decide) (by decide)⟩

/-! ### C10: the pool is full -/

theorem incr_loop_full (buf : List radio_pkt_t)
    (h : ∀ i < RCV_BUF_SIZE, (buf.getD i pkt_zero).users ≠ 0) (pos : Nat)
    (hp : pos < RCV_BUF_SIZE) :
    incr_loop buf RCV_BUF_SIZE 0 pos = (RCV_BUF_SIZE, pos) := by
  rw [forall_lt_rcv_buf] at h
  obtain ⟨h0, h1, h2⟩ := h
  simp only [List.getD_eq_getElem?_getD] at h0 h1 h2
  have hpos : pos = 0 ∨ pos = 1 ∨ pos = 2 := by
    unfold RCV_BUF_SIZE at hp
    omega
  rcases hpos with rfl | rfl | rfl <;> simp [incr_loop, RCV_BUF_SIZE, h0, h1, h2]

/-- C10: when every pool slot is referenced, a frame-received notification
only counts the drop: `stats.radio_buffer_full` is incremented (by one, in the
arithmetic of `uint`) and no other variable changes - pool slots, data buffer,
cursor and socket table (with every receive queue) are as before. -/
theorem C10_pool_full_drops_frame (P : Platform) (st : State) (m : msg_t)
    (cc110x_rx_buffer : List rx_buffer_t) (try_send : Nat → Int)
    (hm : m.type = P.CC1100_PKT_RCV_MSG_TYPE)
    (hpos : st.rcv_buffer_pos < RCV_BUF_SIZE)
    (hfull : ∀ i < RCV_BUF_SIZE, (st.pkt i).users ≠ 0) :
    rx_thread_step P st m cc110x_rx_buffer try_send =
        some { st with stats := { st.stats with
          radio_buffer_full := (st.stats.radio_buffer_full + 1) % UINT_RANGE P } } ∧
      (st.stats.radio_buffer_full < UINT_MAX P →
        (st.stats.radio_buffer_full + 1) % UINT_RANGE P = st.stats.radio_buffer_full + 1) := by
  constructor
  · have hl := incr_loop_full st.pkt_rcv_buffer hfull st.rcv_buffer_pos hpos
    simp [rx_thread_step, incr_rcv_buffer_pos, hm, hl]
  · intro h
    apply Nat.mod_eq_of_lt
    unfold UINT_MAX at h
    omega

/-- C10 at a pool whose three slots hold unconsumed packets. -/
theorem C10_pool_full_drops_frame_witness :
    (∀ i < RCV_BUF_SIZE, (c10_full.pkt i).users = 1) ∧
      rx_thread_step target c10_full rx_msg rx_short (fun _ => 1) =
        some { c10_full with stats := { c10_full.stats with radio_buffer_full := 1 } } :=
  ⟨by decide,
    (C10_pool_full_drops_frame target c10_full rx_msg rx_short (fun _ => 1) (by decide)
      (by decide) (by decide)).1⟩

/-! ### C11: the frame built by `netl_send_to` -/

theorem store16_HTONS (P : Platform) (v : Nat) :
    store16 P (HTONS P v) = [(v / 256) % 256, v % 256] := by
  have h1 : v % 65536 / 256 % 256 = v / 256 % 256 := by omega
  have h2 : v % 65536 % 256 = v % 256 := by omega
  unfold store16 HTONS bswap16
  cases P.little_endian
  · simp only [Bool.false_eq_true, if_false, h1, h2]
  · simp only [if_true, h1, h2]
    have h3 : (v % 256 * 256 + v / 256 % 256) % 256 = v / 256 % 256 := by omega
    have h4 : (v % 256 * 256 + v / 256 % 256) / 256 % 256 = v % 256 := by omega
    rw [h3, h4]

theorem write_bytes_zero (buf src : List Nat) :
    write_bytes buf 0 src = src ++ buf.drop src.length := by
  simp [write_bytes]

theorem read_bytes_zero (buf : List Nat) (n : Nat) : read_bytes buf 0 n = buf.take n := by
  simp [read_bytes]

theorem write_bytes_after (a rest src : List Nat) :
    write_bytes (a ++ rest) a.length src = a ++ src ++ rest.drop src.length := by
  simp [write_bytes, List.take_append_eq_append_take, List.drop_append_eq_append_drop]

theorem frame_in_buf (B udph payload : List Nat) (hu : udph.length = UDP_HDR_SIZE) :
    write_bytes (write_bytes B 0 udph) UDP_HDR_SIZE payload
      = udph ++ payload ++ B.drop (UDP_HDR_SIZE + payload.length) := by
  rw [write_bytes_zero, ← hu, write_bytes_after, List.drop_drop]

/-- What `_netl_send` hands to the driver when the `size` bytes to send are the
list `frame`. -/
theorem _netl_send_pkt (P : Platform) (st : State) (frame rest : List Nat) (size : Nat)
    (cc110x_send : cc110x_packet_t → Int) (hsize : frame.length = size)
    (hfit : size ≤ st.cc110x_pkt.data.length) :
    (_netl_send P st (frame ++ rest) size cc110x_send).2.cc110x_pkt.length
        = (size + P.CC1100_HEADER_LENGTH) % 256 ∧
      read_bytes (_netl_send P st (frame ++ rest) size cc110x_send).2.cc110x_pkt.data 0 size
        = frame ∧
      (_netl_send P st (frame ++ rest) size cc110x_send).2.cc110x_pkt.data.length
        = st.cc110x_pkt.data.length ∧
      (_netl_send P st (frame ++ rest) size cc110x_send).2.next_rand_port
        = st.next_rand_port := by
  have hr : read_bytes (frame ++ rest) 0 size = frame := by
    rw [read_bytes_zero, ← hsize, List.take_left]
  unfold _netl_send
  simp only [hr, write_bytes_zero]
  refine ⟨?_, ?_, ?_, ?_⟩
  · split_ifs <;> rfl
  · have e : read_bytes (frame ++ List.drop frame.length st.cc110x_pkt.data) 0 size = frame := by
      rw [read_bytes_zero, ← hsize, List.take_left]
    split_ifs <;> exact e
  · have e : (frame ++ List.drop frame.length st.cc110x_pkt.data).length
        = st.cc110x_pkt.data.length := by
      rw [List.length_append, List.length_drop]
      omega
    split_ifs <;> exact e
  · split_ifs <;> rfl

/-- The packet `netl_send_to` hands to the driver, the source port being `src`. -/
theorem send_to_pkt (P : Platform) (st : State) (data : List Nat) (size dstport src : Nat)
    (cc110x_send : cc110x_packet_t → Int)
    (hfit : size + UDP_HDR_SIZE ≤ st.cc110x_pkt.data.length) (hdata : size ≤ data.length) :
    (_netl_send P
        { st with send_to_buf :=
            write_bytes (write_bytes st.send_to_buf 0
              (store16 P (HTONS P dstport) ++ store16 P (HTONS P src)
                ++ store16 P (HTONS P size))) UDP_HDR_SIZE (read_bytes data 0 size) }
        (write_bytes (write_bytes st.send_to_buf 0
          (store16 P (HTONS P dstport) ++ store16 P (HTONS P src)
            ++ store16 P (HTONS P size))) UDP_HDR_SIZE (read_bytes data 0 size))
        (size + UDP_HDR_SIZE) cc110x_send).2.cc110x_pkt.length
        = (size + UDP_HDR_SIZE + P.CC1100_HEADER_LENGTH) % 256 ∧
      read_bytes (_netl_send P
        { st with send_to_buf :=
            write_bytes (write_bytes st.send_to_buf 0
              (store16 P (HTONS P dstport) ++ store16 P (HTONS P src)
                ++ store16 P (HTONS P size))) UDP_HDR_SIZE (read_bytes data 0 size) }
        (write_bytes (write_bytes st.send_to_buf 0
          (store16 P (HTONS P dstport) ++ store16 P (HTONS P src)
            ++ store16 P (HTONS P size))) UDP_HDR_SIZE (read_bytes data 0 size))
        (size + UDP_HDR_SIZE) cc110x_send).2.cc110x_pkt.data 0 (size + UDP_HDR_SIZE)
        = [dstport / 256 % 256, dstport % 256, src / 256 % 256, src % 256,
           size / 256 % 256, size % 256] ++ data.take size ∧
      (_netl_send P
        { st with send_to_buf :=
            write_bytes (write_bytes st.send_to_buf 0
              (store16 P (HTONS P dstport) ++ store16 P (HTONS P src)
                ++ store16 P (HTONS P size))) UDP_HDR_SIZE (read_bytes data 0 size) }
        (write_bytes (write_bytes st.send_to_buf 0
          (store16 P (HTONS P dstport) ++ store16 P (HTONS P src)
            ++ store16 P (HTONS P size))) UDP_HDR_SIZE (read_bytes data 0 size))
        (size + UDP_HDR_SIZE) cc110x_send).2.cc110x_pkt.data.length
        = st.cc110x_pkt.data.length ∧
      (_netl_send P
        { st with send_to_buf :=
            write_bytes (write_bytes st.send_to_buf 0
              (store16 P (HTONS P dstport) ++ store16 P (HTONS P src)
                ++ store16 P (HTONS P size))) UDP_HDR_SIZE (read_bytes data 0 size) }
        (write_bytes (write_bytes st.send_to_buf 0
          (store16 P (HTONS P dstport) ++ store16 P (HTONS P src)
            ++ store16 P (HTONS P size))) UDP_HDR_SIZE (read_bytes data 0 size))
        (size + UDP_HDR_SIZE) cc110x_send).2.next_rand_port = st.next_rand_port := by
  have hu : (store16 P (HTONS P dstport) ++ store16 P (HTONS P src)
      ++ store16 P (HTONS P size)).length = UDP_HDR_SIZE := by
    simp [store16_HTONS, UDP_HDR_SIZE]
  have hpay : read_bytes data 0 size = data.take size := read_bytes_zero data size
  have hlen : (data.take size).length = size := by simp [hdata]
  rw [frame_in_buf _ _ _ hu, hpay]
  have h := _netl_send_pkt P
    { st with send_to_buf :=
        store16 P (HTONS P dstport) ++ store16 P (HTONS P src) ++ store16 P (HTONS P size)
          ++ data.take size ++ st.send_to_buf.drop (UDP_HDR_SIZE + (data.take size).length) }
    (store16 P (HTONS P dstport) ++ store16 P (HTONS P src) ++ store16 P (HTONS P size)
      ++ data.take size)
    (st.send_to_buf.drop (UDP_HDR_SIZE + (data.take size).length))
    (size + UDP_HDR_SIZE) cc110x_send
    (by rw [List.length_append, hu, hlen]; omega) hfit
  simp only [store16_HTONS] at h ⊢
  simpa using h

/-- The packet `netl_send_to` leaves in `cc110x_pkt` for a `size` that passes the
size check, and the refusal of a larger `size`. -/
theorem netl_send_to_frame (P : Platform) (st : State) (s : Int) (i : Nat)
    (data : List Nat) (size dstport : Nat) (cc110x_send : cc110x_packet_t → Int)
    (hbits : 8 ≤ P.UINT_BITS)
    (h6 : UDP_HDR_SIZE ≤ P.PORTAIL_MAX_DATA_SIZE)
    (hmax : P.PORTAIL_MAX_DATA_SIZE ≤ P.CC1100_MAX_DATA_LENGTH)
    (h8 : P.CC1100_MAX_DATA_LENGTH + P.CC1100_HEADER_LENGTH < 256)
    (hpkt : st.cc110x_pkt.data.length = P.CC1100_MAX_DATA_LENGTH)
    (hsock : get_socket st s = some i) (hdata : size ≤ data.length) :
    (size ≤ P.PORTAIL_MAX_DATA_SIZE - UDP_HDR_SIZE →
      (netl_send_to P st s data size dstport cc110x_send).2.cc110x_pkt.length
        = UDP_HDR_SIZE + size + P.CC1100_HEADER_LENGTH ∧
      read_bytes (netl_send_to P st s data size dstport cc110x_send).2.cc110x_pkt.data 0
          (UDP_HDR_SIZE + size)
        = [dstport / 256 % 256, dstport % 256,
           (if sock_is_bound P (st.sock i) then (st.sock i).port
            else (get_rand_port P st).1) / 256 % 256,
           (if sock_is_bound P (st.sock i) then (st.sock i).port
            else (get_rand_port P st).1) % 256,
           size / 256 % 256, size % 256] ++ data.take size ∧
      (netl_send_to P st s data size dstport cc110x_send).2.cc110x_pkt.data.length
        = P.CC1100_MAX_DATA_LENGTH ∧
      (netl_send_to P st s data size dstport cc110x_send).2.next_rand_port
        = (if sock_is_bound P (st.sock i) then st.next_rand_port
           else (get_rand_port P st).2.next_rand_port)) ∧
    (P.PORTAIL_MAX_DATA_SIZE - UDP_HDR_SIZE < size →
      netl_send_to P st s data size dstport cc110x_send = (-1, st)) := by
  have hrange : 256 ≤ UINT_RANGE P := by
    unfold UINT_RANGE
    calc 256 = 2 ^ 8 := by norm_num
      _ ≤ 2 ^ P.UINT_BITS := Nat.pow_le_pow_right (by decide) hbits
  have hchk : (P.PORTAIL_MAX_DATA_SIZE + UINT_RANGE P - UDP_HDR_SIZE) % UINT_RANGE P
      = P.PORTAIL_MAX_DATA_SIZE - UDP_HDR_SIZE := by
    have e : P.PORTAIL_MAX_DATA_SIZE + UINT_RANGE P - UDP_HDR_SIZE
        = (P.PORTAIL_MAX_DATA_SIZE - UDP_HDR_SIZE) + UINT_RANGE P := by omega
    rw [e, Nat.add_mod_right]
    exact Nat.mod_eq_of_lt (by omega)
  constructor
  · intro hsize
    have hnot : ¬ (P.PORTAIL_MAX_DATA_SIZE - UDP_HDR_SIZE < size) := by omega
    have hmod : (size + UDP_HDR_SIZE) % 256 = size + UDP_HDR_SIZE :=
      Nat.mod_eq_of_lt (by omega)
    have hpay : (read_bytes data 0 size).length = size := by
      simp [read_bytes, hdata]
    unfold netl_send_to
    rw [hsock]
    simp only [hchk, hnot, if_false, hmod]
    have hfit : size + UDP_HDR_SIZE ≤ st.cc110x_pkt.data.length := by omega
    have hadd : UDP_HDR_SIZE + size = size + UDP_HDR_SIZE := Nat.add_comm _ _
    rw [hadd, ← hpkt]
    by_cases hb : sock_is_bound P (st.sock i) = true
    · simp only [hb, if_true]
      have h := send_to_pkt P st data size dstport (st.sock i).port cc110x_send hfit hdata
      rw [Nat.mod_eq_of_lt (by omega)] at h
      exact h
    · simp only [hb, if_false]
      have h := send_to_pkt P (get_rand_port P st).2 data size dstport (get_rand_port P st).1
        cc110x_send hfit hdata
      rw [Nat.mod_eq_of_lt (by omega)] at h
      exact h
  · intro hsize
    unfold netl_send_to
    rw [hsock]
    simp only [hchk, hsize, if_true]

/-- How `netl_send_to` uses the driver when the size check passes: the packet it
fills is the same for every driver, the result is the driver's result for that
packet as a `uint8_t`, and `radio_send_fail` counts a result of 0 or less. -/
theorem netl_send_to_driver (P : Platform) (st : State) (s : Int) (i : Nat)
    (data : List Nat) (size dstport : Nat) (cc110x_send : cc110x_packet_t → Int)
    (hsock : get_socket st s = some i)
    (hok : ¬ (P.PORTAIL_MAX_DATA_SIZE + UINT_RANGE P - UDP_HDR_SIZE) % UINT_RANGE P < size) :
    (netl_send_to P st s data size dstport cc110x_send).2.cc110x_pkt
        = (netl_send_to P st s data size dstport (fun _ => 0)).2.cc110x_pkt ∧
      (netl_send_to P st s data size dstport cc110x_send).1
        = ((to_uint8 (cc110x_send
            (netl_send_to P st s data size dstport (fun _ => 0)).2.cc110x_pkt) : Nat) : Int) ∧
      (netl_send_to P st s data size dstport cc110x_send).2.stats.radio_send_fail
        = (if cc110x_send (netl_send_to P st s data size dstport (fun _ => 0)).2.cc110x_pkt ≤ 0
            then (st.stats.radio_send_fail + 1) % UINT_RANGE P
            else st.stats.radio_send_fail) ∧
      (netl_send_to P st s data size dstport (fun _ => 0)).2.cc110x_pkt.address
        = P.CC1100_BROADCAST_ADDRESS ∧
      (netl_send_to P st s data size dstport (fun _ => 0)).2.cc110x_pkt.flags = 0 := by
  have hs : (get_rand_port P st).2.stats = st.stats := by
    unfold get_rand_port
    rfl
  unfold netl_send_to
  rw [hsock]
  simp only [hok, if_false]
  unfold _netl_send
  by_cases hb : sock_is_bound P (st.sock i) = true
  · simp only [hb, if_true]
    refine ⟨?_, ?_, ?_, ?_, ?_⟩
    · split_ifs <;> rfl
    · rfl
    · split_ifs <;> rfl
    · split_ifs <;> rfl
    · split_ifs <;> rfl
  · simp only [hb, if_false]
    refine ⟨?_, ?_, ?_, ?_, ?_⟩
    · split_ifs <;> rfl
    · rfl
    · split_ifs <;> simp [hs]
    · split_ifs <;> rfl
    · split_ifs <;> rfl

theorem to_uint8_small (z : Int) (h0 : 0 ≤ z) (h1 : z < 256) : ((to_uint8 z : Nat) : Int) = z := by
  unfold to_uint8
  rw [Int.emod_eq_of_lt h0 h1]
  exact Int.toNat_of_nonneg h0

/-- C11: on a platform whose staging buffer holds a header and fits a
transceiver packet, `netl_send_to` on a live socket with `size` at most
`PORTAIL_MAX_DATA_SIZE - 6` hands the transceiver driver one packet, the same
whatever the driver answers: broadcast address, no flags, length byte
`6 + size + CC1100_HEADER_LENGTH`, and as data the `6 + size` bytes of the
frame: `dstport`, the source port and `size`, each as a 16-bit big-endian
value, then the payload unchanged.  The source port is the socket's port when
`sock_is_bound`, otherwise the value of `get_rand_port`, which is consumed.
That the driver is called with this packet shows in the results: for every
driver, a result for this packet that is a non-negative `int8_t` is what the
call returns, and `radio_send_fail` is incremented exactly when the driver's
result for this packet is 0 or less.  With a larger `size` the call returns -1
and changes no variable, whatever the driver: nothing is transmitted and no
port is consumed. -/
theorem C11_send_to_hands_frame_to_driver (P : Platform) (st : State) (s : Int) (i : Nat)
    (data : List Nat) (size dstport : Nat)
    (hbits : 8 ≤ P.UINT_BITS)
    (h6 : UDP_HDR_SIZE ≤ P.PORTAIL_MAX_DATA_SIZE)
    (hmax : P.PORTAIL_MAX_DATA_SIZE ≤ P.CC1100_MAX_DATA_LENGTH)
    (h8 : P.CC1100_MAX_DATA_LENGTH + P.CC1100_HEADER_LENGTH < 256)
    (hpkt : st.cc110x_pkt.data.length = P.CC1100_MAX_DATA_LENGTH)
    (hsock : get_socket st s = some i) (hdata : size ≤ data.length) :
    (size ≤ P.PORTAIL_MAX_DATA_SIZE - UDP_HDR_SIZE →
      ∃ pkt : cc110x_packet_t,
        pkt.length = UDP_HDR_SIZE + size + P.CC1100_HEADER_LENGTH ∧
        pkt.address = P.CC1100_BROADCAST_ADDRESS ∧ pkt.flags = 0 ∧
        read_bytes pkt.data 0 (UDP_HDR_SIZE + size)
          = [dstport / 256 % 256, dstport % 256,
             (if sock_is_bound P (st.sock i) then (st.sock i).port
              else (get_rand_port P st).1) / 256 % 256,
             (if sock_is_bound P (st.sock i) then (st.sock i).port
              else (get_rand_port P st).1) % 256,
             size / 256 % 256, size % 256] ++ data.take size ∧
        pkt.data.length = P.CC1100_MAX_DATA_LENGTH ∧
        ∀ cc110x_send : cc110x_packet_t → Int,
          (netl_send_to P st s data size dstport cc110x_send).2.cc110x_pkt = pkt ∧
          (0 ≤ cc110x_send pkt → cc110x_send pkt < 128 →
            (netl_send_to P st s data size dstport cc110x_send).1 = cc110x_send pkt) ∧
          (netl_send_to P st s data size dstport cc110x_send).2.stats.radio_send_fail
            = (if cc110x_send pkt ≤ 0 then (st.stats.radio_send_fail + 1) % UINT_RANGE P
               else st.stats.radio_send_fail) ∧
          (netl_send_to P st s data size dstport cc110x_send).2.next_rand_port
            = (if sock_is_bound P (st.sock i) then st.next_rand_port
               else (get_rand_port P st).2.next_rand_port)) ∧
    (P.PORTAIL_MAX_DATA_SIZE - UDP_HDR_SIZE < size →
      ∀ cc110x_send : cc110x_packet_t → Int,
        netl_send_to P st s data size dstport cc110x_send = (-1, st)) := by
  have hrange : 256 ≤ UINT_RANGE P := by
    unfold UINT_RANGE
    calc 256 = 2 ^ 8 := by norm_num
      _ ≤ 2 ^ P.UINT_BITS := Nat.pow_le_pow_right (by decide) hbits
  have hchk : (P.PORTAIL_MAX_DATA_SIZE + UINT_RANGE P - UDP_HDR_SIZE) % UINT_RANGE P
      = P.PORTAIL_MAX_DATA_SIZE - UDP_HDR_SIZE := by
    have e : P.PORTAIL_MAX_DATA_SIZE + UINT_RANGE P - UDP_HDR_SIZE
        = (P.PORTAIL_MAX_DATA_SIZE - UDP_HDR_SIZE) + UINT_RANGE P := by omega
    rw [e, Nat.add_mod_right]
    exact Nat.mod_eq_of_lt (by omega)
  constructor
  · intro hsize
    have hok : ¬ (P.PORTAIL_MAX_DATA_SIZE + UINT_RANGE P - UDP_HDR_SIZE) % UINT_RANGE P
        < size := by
      rw [hchk]
      omega
    have hf := (netl_send_to_frame P st s i data size dstport (fun _ => 0) hbits h6 hmax h8
      hpkt hsock hdata).1 hsize
    have hd0 := netl_send_to_driver P st s i data size dstport (fun _ => 0) hsock hok
    refine ⟨(netl_send_to P st s data size dstport (fun _ => 0)).2.cc110x_pkt,
      hf.1, hd0.2.2.2.1, hd0.2.2.2.2, hf.2.1, hf.2.2.1, ?_⟩
    intro cc110x_send
    have hd := netl_send_to_driver P st s i data size dstport cc110x_send hsock hok
    have hg := (netl_send_to_frame P st s i data size dstport cc110x_send hbits h6 hmax h8
      hpkt hsock hdata).1 hsize
    refine ⟨hd.1, ?_, hd.2.2.1, hg.2.2.2⟩
    intro h0 h1
    rw [hd.2.1]
    exact to_uint8_small _ h0 (by omega)
  · intro hsize cc110x_send
    exact (netl_send_to_frame P st s i data size dstport cc110x_send hbits h6 hmax h8
      hpkt hsock hdata).2 hsize

set_option maxRecDepth 4096 in
/-- C11 at the unbound socket 0 of `sc_one` on the target: ten payload bytes
for port 100 give the driver a packet of length 19 with the frame
00 64 FF FF 00 0A and the payload; the driver that sends everything makes the
call return 19, the pseudo-random port 65535 is consumed; a driver that fails
is counted; 53 bytes are refused. -/
theorem C11_send_to_hands_frame_to_driver_witness :
    ∃ pkt : cc110x_packet_t,
      pkt.length = 19 ∧ pkt.address = 0 ∧ pkt.flags = 0 ∧
      read_bytes pkt.data 0 16 = [0, 100, 255, 255, 0, 10] ++ c2_payload ∧
      (netl_send_to target sc_one 0 c2_payload 10 100 drv_ok).2.cc110x_pkt = pkt ∧
      (netl_send_to target sc_one 0 c2_payload 10 100 drv_ok).1 = 19 ∧
      (netl_send_to target sc_one 0 c2_payload 10 100 drv_ok).2.stats.radio_send_fail = 0 ∧
      (netl_send_to target sc_one 0 c2_payload 10 100 drv_ok).2.next_rand_port = 65534 ∧
      (netl_send_to target sc_one 0 c2_payload 10 100 (fun _ => -1)).2.stats.radio_send_fail
        = 1 ∧
      netl_send_to target sc_one 0 (List.replicate 60 7) 53 100 drv_ok = (-1, sc_one) := by
  obtain ⟨pkt, hl, ha, hf, hd, _, hall⟩ :=
    (C11_send_to_hands_frame_to_driver target sc_one 0 0 c2_payload 10 100 (by decide)
      (by decide) (by decide) (by decide) (by decide) (by decide) (by decide)).1 (by decide)
  have hl19 : pkt.length = 19 := hl
  have hdrv : drv_ok pkt = 19 := by
    unfold drv_ok
    rw [hl19]
    rfl
  have h1 := hall drv_ok
  have h2 := hall (fun _ => -1)
  rw [hdrv] at h1
  refine ⟨pkt, hl19, ha, hf, hd, h1.1, h1.2.1 (by decide) (by decide), ?_, h1.2.2.2, ?_,
    (C11_send_to_hands_frame_to_driver target sc_one 0 0 (List.replicate 60 7) 53 100
      (by decide) (by decide) (by decide) (by decide) (by decide) (by decide) (by decide)).2
      (by decide) drv_ok⟩
  · rw [h1.2.2.1]
    decide
  · rw [h2.2.2.1]
    decide

/-! ### C12 and C13: results of sending, non-blocking receive -/

/-- C12: evaluation of the code where the claim fails.  The driver reports the
failure -1 for a `netl_send` and for a `netl_send_to` on socket 0:
`radio_send_fail` is incremented, but the caller gets 255, not -1.  A driver
result of 0 or more is returned as it is. -/
theorem C12_negative_driver_result_is_returned_as_255 :
    (netl_send target sc_one 0 [1, 2, 3] 3 (fun _ => -1)).1 = 255 ∧
      (netl_send target sc_one 0 [1, 2, 3] 3 (fun _ => -1)).2.stats.radio_send_fail = 1 ∧
      (netl_send_to target sc_one 0 [1, 2, 3] 3 100 (fun _ => -1)).1 = 255 ∧
      (netl_send_to target sc_one 0 [1, 2, 3] 3 100 (fun _ => -1)).2.stats.radio_send_fail = 1 ∧
      (netl_send target sc_one 0 [1, 2, 3] 3 (fun _ => 0)).1 = 0 ∧
      (netl_send target sc_one 0 [1, 2, 3] 3 (fun _ => 0)).2.stats.radio_send_fail = 1 ∧
      (netl_send target sc_one 0 [1, 2, 3] 3 drv_ok).1 = 6 ∧
      (netl_send target sc_one 0 [1, 2, 3] 3 drv_ok).2.stats.radio_send_fail = 0 := by
  decide

/-- A non-blocking socket with an empty queue: `netl_recv` returns 0 and
changes nothing. -/
theorem netl_recv_nonblock_empty (P : Platform) (st : State) (s : Int) (i : Nat)
    (dest : List Nat) (maxlen : Nat) (info : Option frominfo_t)
    (hsock : get_socket st s = some i) (hq : (st.sock i).rcv_queue = none)
    (hb : (st.sock i).blocking = false) :
    netl_recv P st s dest maxlen info = recv_result.returned 0 st dest info := by
  unfold netl_recv
  rw [hsock]
  simp [rcv_queue_pop, hq, hb]

/-- C13: on a live socket whose receive queue is empty, `netl_set_nonblock`
succeeds, a repeated `netl_set_nonblock` succeeds and changes nothing more, and
`netl_recv` then returns 0 at once - it does not wait - leaving the
destination buffer, the info record and every variable (socket table, packet
pool) unchanged; the same holds in every later state in which the socket is
still non-blocking and its queue is empty. -/
theorem C13_nonblocking_recv_on_empty_queue (P : Platform) (st : State) (s : Int) (i : Nat)
    (dest : List Nat) (maxlen : Nat) (info : Option frominfo_t)
    (hlen : st.sockets.length = MAX_SOCKETS)
    (hsock : get_socket st s = some i) (hq : (st.sock i).rcv_queue = none) :
    (netl_set_nonblock st s).1 = 0 ∧
    netl_set_nonblock (netl_set_nonblock st s).2 s = (0, (netl_set_nonblock st s).2) ∧
    netl_recv P (netl_set_nonblock st s).2 s dest maxlen info
      = recv_result.returned 0 (netl_set_nonblock st s).2 dest info ∧
    (∀ st2 : State, get_socket st2 s = some i → (st2.sock i).rcv_queue = none →
      (st2.sock i).blocking = false →
      netl_recv P st2 s dest maxlen info = recv_result.returned 0 st2 dest info) := by
  have hi := (get_socket_some hsock).1
  have hil : i < st.sockets.length := by rw [hlen]; exact hi
  have h1 : netl_set_nonblock st s
      = (0, st.set_sock i { st.sock i with blocking := false }) := by
    unfold netl_set_nonblock
    rw [hsock]
  have hids : ∀ k, ((st.set_sock i { st.sock i with blocking := false }).sock k).id
      = (st.sock k).id := by
    intro k
    rw [sock_set_sock st i k _ hil]
    split_ifs with hk
    · rw [hk]
    · rfl
  have hsock1 : get_socket (st.set_sock i { st.sock i with blocking := false }) s = some i := by
    rw [get_socket_congr hids]
    exact hsock
  have hself : (st.set_sock i { st.sock i with blocking := false }).sock i
      = { st.sock i with blocking := false } := by
    rw [sock_set_sock st i i _ hil, if_pos rfl]
  rw [h1]
  refine ⟨rfl, ?_, ?_, fun st2 h2 hq2 hb2 =>
    netl_recv_nonblock_empty P st2 s i dest maxlen info h2 hq2 hb2⟩
  · unfold netl_set_nonblock
    rw [hsock1]
    simp only [hself]
    congr 1
    unfold State.set_sock
    simp [List.set_set]
  · apply netl_recv_nonblock_empty P _ s i dest maxlen info hsock1
    · rw [hself]; exact hq
    · rw [hself]

/-- C13 at socket 0 of `sc_bound` on the target. -/
theorem C13_nonblocking_recv_on_empty_queue_witness :
    (netl_set_nonblock sc_bound 0).1 = 0 ∧
      netl_recv target (netl_set_nonblock sc_bound 0).2 0 [1, 2] 2 none
        = recv_result.returned 0 (netl_set_nonblock sc_bound 0).2 [1, 2] none ∧
      netl_recv target sc_bound 0 [1, 2] 2 none = recv_result.waiting sc_bound :=
  have h := C13_nonblocking_recv_on_empty_queue target sc_bound 0 0 [1, 2] 2 none (by decide)
    (by decide) (by decide)
  ⟨h.1, h.2.2.1, rfl⟩

/-! ### C14: pseudo-random ports -/

theorem uint_max_ge (P : Platform) (hbits : 2 ≤ P.UINT_BITS) :
    3 ≤ UINT_MAX P ∧ UINT_RANGE P = UINT_MAX P + 1 := by
  have h : 2 ^ 2 ≤ 2 ^ P.UINT_BITS := Nat.pow_le_pow_right (by decide) hbits
  unfold UINT_MAX UINT_RANGE
  omega

/-- One call of `get_rand_port` on a counter within its range. -/
theorem get_rand_port_spec (P : Platform) (hbits : 2 ≤ P.UINT_BITS) (st : State)
    (hhi : st.next_rand_port ≤ UINT_MAX P) :
    (get_rand_port P st).1
        = (if st.next_rand_port < UINT_MAX P / 2 then UINT_MAX P else st.next_rand_port) ∧
      UINT_MAX P / 2 ≤ (get_rand_port P st).1 ∧ (get_rand_port P st).1 ≤ UINT_MAX P ∧
      (get_rand_port P st).1 ≠ 0 ∧
      (get_rand_port P st).2.next_rand_port = (get_rand_port P st).1 - 1 := by
  obtain ⟨h3, hr⟩ := uint_max_ge P hbits
  unfold get_rand_port
  simp only
  rw [hr]
  split_ifs with h
  · refine ⟨trivial, by omega, le_refl _, by omega, ?_⟩
    have e : UINT_MAX P + UINT_MAX P = (UINT_MAX P - 1) + (UINT_MAX P + 1) := by omega
    rw [e, Nat.add_mod_right]
    exact Nat.mod_eq_of_lt (by omega)
  · refine ⟨trivial, by omega, hhi, by omega, ?_⟩
    have e : st.next_rand_port + UINT_MAX P
        = (st.next_rand_port - 1) + (UINT_MAX P + 1) := by omega
    rw [e, Nat.add_mod_right]
    exact Nat.mod_eq_of_lt (by omega)

theorem rand_ports_spec (P : Platform) (hbits : 2 ≤ P.UINT_BITS) (n : Nat) :
    ∀ (st : State) (a : Nat), st.next_rand_port ≤ UINT_MAX P → st.next_rand_port = a - 1 →
      List.Chain (rand_port_next P) a (rand_ports P n st).1 ∧
      (∀ v ∈ (rand_ports P n st).1, UINT_MAX P / 2 ≤ v ∧ v ≤ UINT_MAX P ∧ v ≠ 0) := by
  induction n with
  | zero =>
    intro st a _ _
    simp [rand_ports]
  | succ n ih =>
    intro st a hhi ha
    obtain ⟨h1, h2, h3, h4, h5⟩ := get_rand_port_spec P hbits st hhi
    obtain ⟨i1, i2⟩ := ih (get_rand_port P st).2 (get_rand_port P st).1
      (by rw [h5]; omega) h5
    simp only [rand_ports]
    refine ⟨List.Chain.cons ?_ i1, ?_⟩
    · unfold rand_port_next
      rw [h1, ha]
    · intro v hv
      rcases List.mem_cons.mp hv with rfl | hv
      · exact ⟨h2, h3, h4⟩
      · exact i2 v hv

/-- C14: starting from the initial counter `UINT_MAX` (on a platform whose
`uint` has at least two bits), the first value returned by `get_rand_port` is
`UINT_MAX`; every later value is one less than the value before it, except
that it is `UINT_MAX` again when the counter left behind has fallen below
`UINT_MAX / 2`; every value lies in `[UINT_MAX / 2, UINT_MAX]` and is not 0. -/
theorem C14_rand_port_sequence (P : Platform) (st : State) (n : Nat)
    (hbits : 2 ≤ P.UINT_BITS) (hinit : st.next_rand_port = UINT_MAX P) :
    (rand_ports P (n + 1) st).1.head? = some (UINT_MAX P) ∧
    List.Chain' (rand_port_next P) (rand_ports P (n + 1) st).1 ∧
    (∀ v ∈ (rand_ports P (n + 1) st).1, UINT_MAX P / 2 ≤ v ∧ v ≤ UINT_MAX P ∧ v ≠ 0) := by
  obtain ⟨h3, _⟩ := uint_max_ge P hbits
  obtain ⟨h1, h2, h3', h4, h5⟩ := get_rand_port_spec P hbits st (le_of_eq hinit)
  have hv : (get_rand_port P st).1 = UINT_MAX P := by
    rw [h1, hinit, if_neg (by omega)]
  obtain ⟨i1, i2⟩ := rand_ports_spec P hbits n (get_rand_port P st).2 (get_rand_port P st).1
    (by rw [h5]; omega) h5
  simp only [rand_ports, List.head?_cons]
  refine ⟨by rw [hv], ?_, ?_⟩
  · exact i1
  · intro v hv2
    rcases List.mem_cons.mp hv2 with rfl | hv2
    · exact ⟨h2, h3', h4⟩
    · exact i2 v hv2

/-- C14 on the target: the first three values after `netl_init`, and the two
values around the reset, where the counter has come down to `UINT_MAX / 2`. -/
theorem C14_rand_port_sequence_witness :
    (rand_ports target 3 sc_init).1 = [65535, 65534, 65533] ∧
      (rand_ports target 2 { sc_init with next_rand_port := 32767 }).1 = [32767, 65535] ∧
      List.Chain' (rand_port_next target) (rand_ports target 3 sc_init).1 ∧
      (∀ v ∈ (rand_ports target 3 sc_init).1,
        UINT_MAX target / 2 ≤ v ∧ v ≤ UINT_MAX target ∧ v ≠ 0) :=
  ⟨by decide, by decide,
    (C14_rand_port_sequence target sc_init 2 (by decide) (by decide)).2⟩

/-! ### C15, C16, C17 and C20: fan-out, closed slots and the shared queue link -/

/-- C15: evaluation of the code where the claim fails.  On the target, raw
socket 0 has no port and an owner, datagram socket 1 is bound to port 2.  A
frame for port 2 (payload 11) is delivered to both: one packet, `users = 2`, on
both queues.  A frame for port 9 (payload 22) is then delivered to socket 0
only (`users = 1`); appending it to the queue of socket 0 writes the link of
the shared packet, so it is on the queue of socket 1 as well, and two
`netl_recv` calls on socket 1 obtain the frame for port 2 and then the frame
for port 9.  When instead a second frame for port 2 is delivered to both,
its packet is linked to itself and `netl_recv` on socket 1 obtains it again
and again. -/
theorem C15_queue_link_is_shared :
    (∃ s1 s2 s3 s4,
      (c6_owned.sock 0).type = target.SOCK_RAW ∧ (c6_owned.sock 0).port = 0 ∧
      (c6_owned.sock 1).port = 2 ∧
      rx_thread_step target c6_owned rx_msg (rx_to 2 11) accept_all = some s1 ∧
      (s1.pkt 0).users = 2 ∧
      rcv_queue_list s1 0 = some [0] ∧ rcv_queue_list s1 1 = some [0] ∧
      rx_thread_step target s1 rx_msg (rx_to 9 22) accept_all = some s2 ∧
      (s2.pkt 1).users = 1 ∧
      rcv_queue_list s2 0 = some [0, 1] ∧ rcv_queue_list s2 1 = some [0, 1] ∧
      netl_recv target s2 1 [0, 0, 0, 0] 4 none
        = recv_result.returned 4 s3 [11, 11, 11, 11] none ∧
      netl_recv target s3 1 [0, 0, 0, 0] 4 none
        = recv_result.returned 4 s4 [22, 22, 22, 22] none) ∧
    (∃ s1 s2 s3 s4 s5 s6,
      rx_thread_step target c6_owned rx_msg (rx_to 2 11) accept_all = some s1 ∧
      rx_thread_step target s1 rx_msg (rx_to 2 22) accept_all = some s2 ∧
      (s2.pkt 1).rcv_queue_next = some 1 ∧
      netl_recv target s2 1 [0, 0, 0, 0] 4 none
        = recv_result.returned 4 s3 [11, 11, 11, 11] none ∧
      netl_recv target s3 1 [0, 0, 0, 0] 4 none
        = recv_result.returned 4 s4 [22, 22, 22, 22] none ∧
      netl_recv target s4 1 [0, 0, 0, 0] 4 none
        = recv_result.returned 4 s5 [22, 22, 22, 22] none ∧
      netl_recv target s5 1 [0, 0, 0, 0] 4 none
        = recv_result.returned 4 s6 [22, 22, 22, 22] none) := by
  constructor
  · exact ⟨_, _, _, _, by decide, by decide, by decide, rfl, by decide, by decide, by decide,
      rfl, by decide, by decide, by decide, rfl, rfl⟩
  · exact ⟨_, _, _, _, _, _, rfl, rfl, by decide, rfl, rfl, rfl, rfl⟩

/-- C16: evaluation of the code where the claim fails.  Raw socket 0 (no port,
with an owner) and datagram socket 1 (port 2) both hold the packet of a first
frame for port 2.  A second frame for port 2 matches both sockets; the owner
of socket 0 accepts the notification, the owner of socket 1 refuses it.  The
packet gets `users = 1`, which is K, and the head of the queue of socket 1 is
not written; but the append to the queue of socket 0 links the new packet
behind the shared first one, so the queue of socket 1 holds it too and
`netl_recv` on socket 1 obtains the refused frame. -/
theorem C16_refused_socket_gets_the_packet :
    ∃ s1 s2 s3 s4,
      rx_thread_step target c6_owned rx_msg (rx_to 2 11) accept_all = some s1 ∧
      rcv_queue_list s1 1 = some [0] ∧
      rx_thread_step target s1 rx_msg (rx_to 2 22) accept_slot0 = some s2 ∧
      (s2.pkt 1).users = 1 ∧ (s2.sock 1).rcv_queue = (s1.sock 1).rcv_queue ∧
      rcv_queue_list s2 1 = some [0, 1] ∧
      netl_recv target s2 1 [0, 0, 0, 0] 4 none
        = recv_result.returned 4 s3 [11, 11, 11, 11] none ∧
      netl_recv target s3 1 [0, 0, 0, 0] 4 none
        = recv_result.returned 4 s4 [22, 22, 22, 22] none := by
  exact ⟨_, _, _, _, rfl, by decide, rfl, by decide, by decide, by decide, rfl, rfl⟩

/-- C17: evaluation of the code where the claim fails.  Socket 0, bound to port
100, is closed (a state reached from `netl_init` by one `netl_socket`, one
`netl_bind` and one `netl_close` call), so that no slot holds a live socket.  A frame for port 100 is
then dispatched: the closed slot 0 gets the packet on its queue and a
reference (`users = 1`), and the frame is not counted as unhandled. -/
theorem C17_closed_slot_receives :
    ∃ st1, TableReachable target (netl_close target sc_bound 0).2 ∧
      (netl_close target sc_bound 0).1 = 0 ∧
      (∀ i < MAX_SOCKETS, ((netl_close target sc_bound 0).2.sock i).id = target.SOCK_UNDEF) ∧
      rx_thread_step target (netl_close target sc_bound 0).2 rx_msg rx_short accept_all
        = some st1 ∧
      (st1.sock 0).id = target.SOCK_UNDEF ∧ (st1.sock 0).rcv_queue = some 0 ∧
      (st1.pkt 0).users = 1 ∧ st1.stats.unhandled_packet = 0 := by
  have hr : TableReachable target (netl_close target sc_bound 0).2 :=
    TableReachable.close 0 (TableReachable.bind 0 100 5
      (TableReachable.socket 0 (TableReachable.init 7)))
  exact ⟨_, hr, by decide, by decide, rfl, by decide, by decide, by decide, by decide⟩

/-- C20: evaluation of the code where the claim fails.  Raw socket 0 (no port,
with an owner) and datagram socket 1 (port 2) exist, reached from `netl_init`
by `netl_socket` and `netl_bind` calls.  Two frames for port 2 are dispatched
to both sockets.  The second append for the second frame walks to the tail of
the queue of socket 1, which is the new packet itself, and links it to
itself: both queues are cyclic.  For the next frame the tail walk of
`rcv_queue_add` does not end, so `handle_radio_packet` does not return. -/
theorem C20_queue_becomes_cyclic :
    ∃ s1 s2, TableReachable target c6_owned ∧
      rx_thread_step target c6_owned rx_msg (rx_to 2 11) accept_all = some s1 ∧
      rx_thread_step target s1 rx_msg (rx_to 2 22) accept_all = some s2 ∧
      (s2.sock 0).rcv_queue = some 0 ∧ (s2.sock 1).rcv_queue = some 0 ∧
      (s2.pkt 0).rcv_queue_next = some 1 ∧ (s2.pkt 1).rcv_queue_next = some 1 ∧
      rcv_queue_list s2 0 = none ∧ rcv_queue_list s2 1 = none ∧
      (s2.pkt 2).users = 0 ∧
      rx_thread_step target s2 rx_msg (rx_to 2 33) accept_all = none ∧
      rx_thread_step target s2 rx_msg (rx_to 9 33) accept_all = none := by
  have hr : TableReachable target c6_owned :=
    TableReachable.bind 0 0 5 (TableReachable.bind 2 3 5 (TableReachable.bind 1 2 5
      (TableReachable.bind 0 1 5 (TableReachable.socket 0 (TableReachable.socket 0
        (TableReachable.socket target.SOCK_RAW (TableReachable.init 7)))))))
  exact ⟨_, _, hr, rfl, rfl, by decide, by decide, by decide, by decide, by decide, by decide,
    by decide, rfl, rfl⟩

/-! ### C18: acquiring a pool slot -/

/-- The result of the loop of `incr_rcv_buffer_pos` from a cursor in range:
the first of the three slots from the cursor on, cyclically, that is free. -/
theorem incr_loop_eq (buf : List radio_pkt_t) (pos : Nat) (hpos : pos < RCV_BUF_SIZE) :
    incr_loop buf RCV_BUF_SIZE 0 pos =
      if (buf.getD pos pkt_zero).users = 0 then (0, pos)
      else if (buf.getD ((pos + 1) % RCV_BUF_SIZE) pkt_zero).users = 0 then
        (1, (pos + 1) % RCV_BUF_SIZE)
      else if (buf.getD ((pos + 2) % RCV_BUF_SIZE) pkt_zero).users = 0 then
        (2, (pos + 2) % RCV_BUF_SIZE)
      else (3, pos) := by
  have h3 : pos = 0 ∨ pos = 1 ∨ pos = 2 := by
    unfold RCV_BUF_SIZE at hpos
    omega
  rcases h3 with rfl | rfl | rfl <;>
    simp only [incr_loop, RCV_BUF_SIZE, bne_iff_ne, ne_eq, ite_not] <;>
    split_ifs <;> simp_all

/-- C18: for every state whose cursor is in `[0, RCV_BUF_SIZE)`,
`incr_rcv_buffer_pos` returns 0 or -1, and 0 if and only if some pool slot has
`users = 0`; on success the new cursor is the first slot with `users = 0` at or
cyclically after the old cursor; on failure the cursor has its old value; the
cursor stays in `[0, RCV_BUF_SIZE)` and no other variable changes. -/
theorem C18_pool_slot_acquisition (st : State) (hpos : st.rcv_buffer_pos < RCV_BUF_SIZE) :
    ((incr_rcv_buffer_pos st).1 = 0 ∨ (incr_rcv_buffer_pos st).1 = -1) ∧
    ((incr_rcv_buffer_pos st).1 = 0 ↔ ∃ i < RCV_BUF_SIZE, (st.pkt i).users = 0) ∧
    ((incr_rcv_buffer_pos st).1 = 0 →
      ∃ k < RCV_BUF_SIZE,
        (incr_rcv_buffer_pos st).2.rcv_buffer_pos = (st.rcv_buffer_pos + k) % RCV_BUF_SIZE ∧
        (st.pkt ((st.rcv_buffer_pos + k) % RCV_BUF_SIZE)).users = 0 ∧
        ∀ j < k, (st.pkt ((st.rcv_buffer_pos + j) % RCV_BUF_SIZE)).users ≠ 0) ∧
    ((incr_rcv_buffer_pos st).1 = -1 →
      (incr_rcv_buffer_pos st).2.rcv_buffer_pos = st.rcv_buffer_pos) ∧
    (incr_rcv_buffer_pos st).2.rcv_buffer_pos < RCV_BUF_SIZE ∧
    (incr_rcv_buffer_pos st).2
      = { st with rcv_buffer_pos := (incr_rcv_buffer_pos st).2.rcv_buffer_pos } := by
  have hloop := incr_loop_eq st.pkt_rcv_buffer st.rcv_buffer_pos hpos
  have hsnd := incr_rcv_buffer_pos_snd st
  have hfst : (incr_rcv_buffer_pos st).1
      = if (incr_loop st.pkt_rcv_buffer RCV_BUF_SIZE 0 st.rcv_buffer_pos).1 ≥ RCV_BUF_SIZE
        then -1 else 0 := by
    unfold incr_rcv_buffer_pos
    simp only
    split_ifs <;> rfl
  have hmod0 : (st.rcv_buffer_pos + 0) % RCV_BUF_SIZE = st.rcv_buffer_pos :=
    Nat.mod_eq_of_lt hpos
  have hex : (∃ i < RCV_BUF_SIZE, (st.pkt i).users = 0) ↔
      ((st.pkt st.rcv_buffer_pos).users = 0 ∨
        (st.pkt ((st.rcv_buffer_pos + 1) % RCV_BUF_SIZE)).users = 0 ∨
        (st.pkt ((st.rcv_buffer_pos + 2) % RCV_BUF_SIZE)).users = 0) := by
    have h3 : st.rcv_buffer_pos = 0 ∨ st.rcv_buffer_pos = 1 ∨ st.rcv_buffer_pos = 2 := by
      unfold RCV_BUF_SIZE at hpos
      omega
    constructor
    · rintro ⟨i, hi, hu⟩
      have hi3 : i = 0 ∨ i = 1 ∨ i = 2 := by
        unfold RCV_BUF_SIZE at hi
        omega
      rcases h3 with h | h | h <;> rcases hi3 with rfl | rfl | rfl <;>
        simp [h, RCV_BUF_SIZE, hu]
    · rintro (h | h | h)
      · exact ⟨_, hpos, h⟩
      · exact ⟨_, Nat.mod_lt _ (by decide), h⟩
      · exact ⟨_, Nat.mod_lt _ (by decide), h⟩
  rw [hsnd, hfst, hloop, hex]
  show _ ∧ _ ∧ _ ∧ _ ∧ _ ∧ _
  unfold State.pkt
  by_cases h0 : (st.pkt_rcv_buffer.getD st.rcv_buffer_pos pkt_zero).users = 0
  · simp only [h0, if_true]
    refine ⟨Or.inl (by simp [RCV_BUF_SIZE]), by simp [RCV_BUF_SIZE], ?_, by simp [RCV_BUF_SIZE],
      hpos, trivial⟩
    intro _
    exact ⟨0, by decide, hmod0.symm, by rw [hmod0]; exact h0, fun j hj => absurd hj (by omega)⟩
  by_cases h1 : (st.pkt_rcv_buffer.getD ((st.rcv_buffer_pos + 1) % RCV_BUF_SIZE) pkt_zero).users
      = 0
  · simp only [h0, h1, if_true, if_false]
    refine ⟨Or.inl (by simp [RCV_BUF_SIZE]), by simp [RCV_BUF_SIZE], ?_, by simp [RCV_BUF_SIZE],
      Nat.mod_lt _ (by decide), trivial⟩
    intro _
    refine ⟨1, by decide, rfl, h1, fun j hj => ?_⟩
    have hj0 : j = 0 := by omega
    rw [hj0, hmod0]
    exact h0
  by_cases h2 : (st.pkt_rcv_buffer.getD ((st.rcv_buffer_pos + 2) % RCV_BUF_SIZE) pkt_zero).users
      = 0
  · simp only [h0, h1, h2, if_true, if_false]
    refine ⟨Or.inl (by simp [RCV_BUF_SIZE]), by simp [RCV_BUF_SIZE], ?_, by simp [RCV_BUF_SIZE],
      Nat.mod_lt _ (by decide), trivial⟩
    intro _
    refine ⟨2, by decide, rfl, h2, fun j hj => ?_⟩
    have hj0 : j = 0 ∨ j = 1 := by omega
    rcases hj0 with rfl | rfl
    · rw [hmod0]; exact h0
    · exact h1
  · simp only [h0, h1, h2, if_false]
    refine ⟨Or.inr (by simp [RCV_BUF_SIZE]), by simp [RCV_BUF_SIZE], ?_, fun _ => trivial, hpos, ?_⟩
    · intro h
      simp [RCV_BUF_SIZE] at h
    · trivial

/-- C18 at a pool whose slot 0, under the cursor, holds an unconsumed packet:
the cursor moves on to slot 1. -/
theorem C18_pool_slot_acquisition_witness :
    ((feed sc_bound rx_short 1).pkt 0).users = 1 ∧
      (feed sc_bound rx_short 1).rcv_buffer_pos = 0 ∧
      (incr_rcv_buffer_pos (feed sc_bound rx_short 1)).2.rcv_buffer_pos = 1 ∧
      ((incr_rcv_buffer_pos (feed sc_bound rx_short 1)).1 = 0 ↔
        ∃ i < RCV_BUF_SIZE, ((feed sc_bound rx_short 1).pkt i).users = 0) :=
  ⟨by decide, by decide, by decide,
    (C18_pool_slot_acquisition (feed sc_bound rx_short 1) (by decide)).2.1⟩

/-! ### C19: how many bytes netl_recv copies -/

end NetLayer
